import Mathlib

/-
Verification of the DSP-FD2 front-door service (src/front_door.py and
src/apisix_client.py) against its natural-language specification.

The Python code is shallowly embedded: dictionaries become association
lists (insertion-ordered, as Python dicts are), `await`ed effects become
explicit parameters (the outcome of a health probe, of a module
initialization, of a gateway admin PUT), and in-place mutation of the
manifest dictionary becomes explicit value passing (the mutated manifest
is returned alongside the result).
-/

namespace DspFd2

/- Python-style string helpers, on character lists. -/

/-- Python `s.split(sep)` for a single-character separator: `""` splits to
`[""]`, adjacent separators produce empty fields. -/
def splitChar (sep : Char) : List Char → List (List Char)
  | [] => [[]]
  | c :: rest =>
    if c = sep then [] :: splitChar sep rest
    else
      match splitChar sep rest with
      | [] => [[c]]
      | s :: ss => (c :: s) :: ss

/-- Drop every copy of `c` from the back of the list. -/
def dropTrail (c : Char) (l : List Char) : List Char :=
  (l.reverse.dropWhile (· = c)).reverse

/-- Python `s.strip(c)` for a single character: drop leading and trailing
copies of `c`. -/
def pyStrip (c : Char) (l : List Char) : List Char :=
  dropTrail c (l.dropWhile (· = c))

/-- Python `needle in hay` on strings (contiguous-substring test). -/
def containsSub (needle : List Char) : List Char → Bool
  | [] => needle.isEmpty
  | c :: rest => needle.isPrefixOf (c :: rest) || containsSub needle rest

/-- Python `s.startswith(pfx)`. -/
def pyStartsWith (s pfx : String) : Bool :=
  pfx.data.isPrefixOf s.data

/-- Python `s.replace(c, d)` for single characters. -/
def pyReplaceChar (s : String) (c d : Char) : String :=
  ⟨s.data.map fun x => if x = c then d else x⟩

/-- Python `needle in hay` lifted to `String`. -/
def strContains (hay needle : String) : Bool :=
  containsSub needle.data hay.data

/-- ASCII lowercase of one character (the identifiers compared in this
code are ASCII, where Python's `str.lower` agrees with this). -/
def pyLowerChar (c : Char) : Char :=
  if 65 ≤ c.toNat ∧ c.toNat ≤ 90 then Char.ofNat (c.toNat + 32) else c

/-- Python `s.lower()` on ASCII strings. -/
def pyLower (s : String) : String :=
  ⟨s.data.map pyLowerChar⟩

/- Association lists standing in for Python dicts (insertion ordered). -/

/-- Python `d.get(k)`: value of the first binding of `k`, if any. -/
def alistGet {α : Type} (m : List (String × α)) (k : String) : Option α :=
  (m.find? fun p => p.1 = k).map Prod.snd

/-- Python `d[k] = v`: replace the binding of `k` in place when present,
otherwise append a new binding at the end. -/
def alistPut {α : Type} (m : List (String × α)) (k : String) (v : α) :
    List (String × α) :=
  if m.any fun p => p.1 = k then
    m.map fun p => if p.1 = k then (k, v) else p
  else m ++ [(k, v)]

/-- Python `del d[k]`: drop every binding of `k`. -/
def alistDrop {α : Type} (m : List (String × α)) (k : String) :
    List (String × α) :=
  m.filter fun p => p.1 ≠ k

/-
Front-door routing model, from `UnifiedFrontDoorService` in
src/front_door.py.
-/

/-- The `RoutingMode` enum from src/front_door.py (the spec's `gateway` mode
is the code's `APISIX` member). -/
inductive RoutingMode where
  | direct
  | apisix
  | hybrid
deriving DecidableEq, Repr

/-- One entry of a manifest's `modules` list as read by
`analyze_and_configure_project`: only `module_type` and `name` are
consulted, both defaulting to `""` when the key is absent. -/
structure FDModule where
  module_type : String := ""
  name : String := ""
deriving DecidableEq, Repr

/-- The slice of a Control-Tower manifest that routing analysis reads. -/
structure FDManifest where
  modules : List FDModule := []
deriving DecidableEq, Repr

/-- The gateway-module test from `analyze_and_configure_project`
(src/front_door.py lines 304-315): some module has lowered
`module_type` equal to `"api_gateway"` and `"apisix"` occurring in its
lowered `name`. -/
def hasApisixModule (modules : List FDModule) : Bool :=
  modules.any fun m =>
    pyLower m.module_type = "api_gateway" &&
      strContains (pyLower m.name) "apisix"

/-- The routing decision of `analyze_and_configure_project`
(src/front_door.py lines 317-338): `APISIX` only when a gateway module
is present AND `self.apisix_client` is non-None, `DIRECT` otherwise. -/
def routingDecision (apisixClientConfigured : Bool)
    (modules : List FDModule) : RoutingMode :=
  if hasApisixModule modules && apisixClientConfigured then
    RoutingMode.apisix
  else
    RoutingMode.direct

/-- State effect of `analyze_and_configure_project` on
`self.project_routing` for a successfully fetched manifest. -/
def analyze_and_configure_project (apisixClientConfigured : Bool)
    (routing : List (String × RoutingMode)) (projectId : String)
    (manifest : FDManifest) : List (String × RoutingMode) :=
  alistPut routing projectId
    (routingDecision apisixClientConfigured manifest.modules)

/-
Project-id extraction, from `UnifiedFrontDoorService.extract_project_id`
(src/front_door.py lines 470-489). Headers are modeled as the dispatcher
sees them: `x-project-id` as an optional value, `host` defaulting to
`""` when absent.
-/

/-- The subdomain fallback of `extract_project_id`: when `host` contains
a dot, its part before the first dot, provided it is neither empty nor
`"www"`. -/
def extractFromHost (host : String) : Option String :=
  if containsSub ['.'] host.data then
    let subdomain : List Char := (splitChar '.' host.data).headD []
    if subdomain ≠ [] && (⟨subdomain⟩ : String) ≠ "www" then
      some ⟨subdomain⟩
    else none
  else none

/-- Embedding of `extract_project_id`: path first segment, then the `X-Project-Id`
header, then a non-`www` subdomain of `host`; `none` otherwise. -/
def extract_project_id (path : String) (xProjectId : Option String)
    (host : String) : Option String :=
  if (splitChar '/' (pyStrip '/' path.data)).headD [] ≠ [] then
    some ⟨(splitChar '/' (pyStrip '/' path.data)).headD []⟩
  else
    match xProjectId with
    | some h => if h ≠ "" then some h else extractFromHost host
    | none => extractFromHost host

/-- Spec-side reading of "the path's first non-empty segment": the
characters between the leading run of slashes and the next slash. -/
def specFirstSegment (path : String) : List Char :=
  (path.data.dropWhile (· = '/')).takeWhile (· ≠ '/')

/-- The project-resolution stage of `handle_request` (src/front_door.py
lines 352-359): a request from which no project id can be extracted is
rejected with HTTP 400. -/
def handleRequestProjectStage (path : String) (xProjectId : Option String)
    (host : String) : Except Nat String :=
  match extract_project_id path xProjectId host with
  | none => Except.error 400
  | some pid => Except.ok pid

/-
Module pool, from `ModuleManager` in src/front_door.py (lines 96-204).
The pool is the insertion-ordered dict `self.modules` /
`self.module_metadata`, modeled as one association list; timestamps are
abstract `Nat` ticks; the outcomes of the two awaited effects — the
existing instance's health probe and the new instance's
`initialize` — are passed in as booleans; `shutdown` calls are reported
as a list of the keys shut down, in call order.
-/

/-- Per-instance bookkeeping from `self.module_metadata`. -/
structure ModuleMeta where
  created_at : Nat
  last_used : Nat
deriving DecidableEq, Repr

/-- The pool contents: `module_key → metadata`, insertion ordered as a
Python dict is. (The real key is the md5 of
`"project:module:environment"`; hashing is treated as injective and the
key kept as an opaque string.) -/
abbrev Pool := List (String × ModuleMeta)

/-- How a `get_or_create_module` call ended. -/
inductive PoolStepResult where
  | reused
  | created
  | createFailed
deriving DecidableEq, Repr

/-- Refresh `last_used` of `key` in place
(`self.module_metadata[module_key]["last_used"] = datetime.utcnow()`). -/
def refreshLastUsed (p : Pool) (key : String) (now : Nat) : Pool :=
  p.map fun e =>
    if e.1 = key then (e.1, { e.2 with last_used := now }) else e

/-- The entry Python's `min(metadata.keys(), key=lambda k: last_used)`
selects: the first entry whose `last_used` is minimal. -/
def minLastUsedEntry (p : Pool) : Option (String × ModuleMeta) :=
  match p with
  | [] => none
  | e :: rest =>
      some (rest.foldl
        (fun best x => if x.2.last_used < best.2.last_used then x else best)
        e)

/-- Embedding of `ModuleManager._remove_module`: shut the instance down and delete it;
returns the new pool and the shutdown events. -/
def removeModule (p : Pool) (key : String) : Pool × List String :=
  if (alistGet p key).isSome then (alistDrop p key, [key])
  else (p, [])

/-- Embedding of `ModuleManager._evict_oldest_module`: no-op on an empty pool,
otherwise remove the least-recently-used entry. -/
def evictOldestModule (p : Pool) : Pool × List String :=
  match minLastUsedEntry p with
  | none => (p, [])
  | some e => removeModule p e.1

/-- The create-and-insert tail of `get_or_create_module` (lines
127-141): run `_create_module` (outcome `createOk`), then evict when
`len(modules) >= module_pool_size`, then insert the new entry (the key
is absent at this point, so Python's dict assignment appends). -/
def createAndInsert (poolSize : Nat) (now : Nat) (createOk : Bool)
    (key : String) (p : Pool) (events : List String) :
    Pool × PoolStepResult × List String :=
  if createOk then
    let evicted :=
      if poolSize ≤ p.length then evictOldestModule p else (p, [])
    (evicted.1 ++ [(key, ⟨now, now⟩)], PoolStepResult.created,
      events ++ evicted.2)
  else (p, PoolStepResult.createFailed, events)

/-- Embedding of `ModuleManager.get_or_create_module` (lines 105-141): on a hit whose
health probe reports `"ready"`, refresh `last_used` and return the
existing instance; on a non-ready hit, shut it down, remove it, and fall
through to creation; on a miss, create. `healthReady` is the probe's
`health.get("status") == "ready"`; `createOk` is whether
`_create_module` (including the module's `initialize`) succeeds. -/
def get_or_create_module (poolSize : Nat) (now : Nat) (healthReady : Bool)
    (createOk : Bool) (key : String) (p : Pool) :
    Pool × PoolStepResult × List String :=
  match alistGet p key with
  | some _ =>
      if healthReady then (refreshLastUsed p key now, PoolStepResult.reused, [])
      else
        let removed := removeModule p key
        createAndInsert poolSize now createOk key removed.1 removed.2
  | none => createAndInsert poolSize now createOk key p []

/-- Status-code behaviour of `UnifiedFrontDoorService.route_to_module`
(src/front_door.py lines 431-468): 503 without a module manager, 404
without a manifest, 500 when `get_or_create_module` raises (any
non-HTTPException lands in the final handler), otherwise the status the
module's `process_request` returned. -/
def route_to_module_status (managerAvailable : Bool)
    (manifestFound : Bool) (stepResult : PoolStepResult)
    (processStatus : Nat) : Nat :=
  if managerAvailable = false then 503
  else if manifestFound = false then 404
  else
    match stepResult with
    | PoolStepResult.createFailed => 500
    | _ => processStatus

/-
Gateway proxy path, from `UnifiedFrontDoorService.route_through_apisix`
(src/front_door.py lines 387-429). Header names are lowercase, as
Starlette presents them; bodies are byte lists; the upstream call's
outcome is passed in as a function of the forwarded request.
-/

/-- An inbound tenant request as the proxy path reads it. -/
structure ProxyRequest where
  method : String
  path : String
  headers : List (String × String)
  query : List (String × String)
  body : List Nat
deriving DecidableEq, Repr

/-- The request actually sent to the APISIX gateway. -/
structure ForwardedRequest where
  method : String
  path : String
  headers : List (String × String)
  query : List (String × String)
  body : Option (List Nat)
deriving DecidableEq, Repr

/-- Outcome of the `http_client.request` call to the gateway. -/
inductive UpstreamOutcome where
  | ok (status : Nat) (headers : List (String × String)) (body : List Nat)
  | timeoutErr
  | transportErr
deriving DecidableEq, Repr

/-- What `handle_request` ultimately produces for the caller. -/
inductive FDResponse where
  | response (status : Nat) (headers : List (String × String))
      (body : List Nat)
  | httpError (status : Nat)
deriving DecidableEq, Repr

/-- Request assembly in `route_through_apisix` (lines 392-415): prepend
`/<project_id>` unless the path already starts with it, drop the `host`
header, and attach the body only for POST, PUT and PATCH. -/
def buildForwardedRequest (projectId : String) (req : ProxyRequest) :
    ForwardedRequest :=
  { method := req.method
    path :=
      if pyStartsWith req.path ("/" ++ projectId) then req.path
      else "/" ++ projectId ++ req.path
    headers := req.headers.filter fun h => h.1 ≠ "host"
    query := req.query
    body :=
      if req.method = "POST" ∨ req.method = "PUT" ∨ req.method = "PATCH"
      then some req.body
      else none }

/-- Embedding of `route_through_apisix`: 503 when the gateway is unconfigured,
otherwise forward and relay the upstream status/headers/body, mapping
`httpx.TimeoutException` to 504 and other `httpx.RequestError`s to
502. -/
def route_through_apisix (gatewayConfigured : Bool) (projectId : String)
    (req : ProxyRequest)
    (upstream : ForwardedRequest → UpstreamOutcome) : FDResponse :=
  if gatewayConfigured = false then FDResponse.httpError 503
  else
    match upstream (buildForwardedRequest projectId req) with
    | UpstreamOutcome.ok s h b => FDResponse.response s h b
    | UpstreamOutcome.timeoutErr => FDResponse.httpError 504
    | UpstreamOutcome.transportErr => FDResponse.httpError 502

/-
Runtime-reference resolution, from
`UnifiedFrontDoorService.get_runtime_references` (src/front_door.py
lines 536-546).
-/

/-- One value of a module's `cross_references` dict. The code reads only
`module_name`; `source`, `required` and `default` are carried to show
they are ignored. -/
structure CrossRef where
  module_name : Option String := none
  source : Option String := none
  req : Option Bool := none
  dflt : Option String := none
deriving DecidableEq, Repr

/-- A manifest module as `get_runtime_references` reads it:
`module.get("cross_references", ...)` only. -/
structure RTModule where
  cross_references : List (String × CrossRef) := []
deriving DecidableEq, Repr

/-- Embedding of `get_runtime_references`: for every module, for every
cross-reference, bind the reference name to the entry's `module_name`
(later bindings overwrite earlier ones, as in the Python dict). The
function is total: no scheme is inspected, no `required`/`default`
handling exists, and resolution never fails. -/
def get_runtime_references (modules : List RTModule) :
    List (String × Option String) :=
  modules.foldl
    (fun refs m =>
      m.cross_references.foldl
        (fun refs r => alistPut refs r.1 r.2.module_name) refs)
    []

/-- The flat (name, module_name) binding sequence `get_runtime_references`
walks over, in order. -/
def flatRefs (modules : List RTModule) : List (String × Option String) :=
  modules.flatMap fun m =>
    m.cross_references.map fun p => (p.1, p.2.module_name)

/-- Fixture: a required reference with a secret-store source and no
default, exactly the spec's failing scenario. -/
def reqCrossRef : CrossRef :=
  { module_name := none, source := some "secret-store://missing/path",
    req := some true, dflt := none }

/-- Fixture: a module carrying only the required reference above. -/
def reqRTModule : RTModule :=
  { cross_references := [("api_key", reqCrossRef)] }

/-- A cross-reference entry with its resolution-relevant fields blanked:
what scrubbing `source`, `required` and `default` leaves behind. -/
def scrubCrossRef (r : CrossRef) : CrossRef :=
  { module_name := r.module_name }

/-- Scrub every cross-reference of a module. -/
def scrubRTModule (m : RTModule) : RTModule :=
  { cross_references :=
      m.cross_references.map fun p => (p.1, scrubCrossRef p.2) }

/-
APISIX client, from `APISIXClient` in src/apisix_client.py. The gateway
admin store is modeled as association lists `resource id → payload`; a
`create_*` call is a create-or-replace PUT at a deterministic id, whose
success or failure is supplied by an oracle `ok : ResKind → String →
Bool` (covering both admin-API failures and pydantic validation errors,
which the code catches identically). Opaque nested JSON maps (plugin
configs, upstream nodes) are abstracted to string-keyed association
lists. `configure_from_manifest` mutates the manifest's route and
upstream dictionaries in place; the embedding returns the mutated
manifest explicitly.
-/

/-- The kinds of gateway resources `configure_from_manifest` creates. -/
inductive ResKind where
  | routeK
  | upstreamK
  | serviceK
  | consumerK
  | globalRuleK
deriving DecidableEq, Repr

/-- An entry the code appends to `results["errors"]`: either the early
"No APISIX gateway module found in manifest" message or a
per-resource failure message (abstracted to the failed resource's kind
and id). -/
inductive ConfigError where
  | noGatewayModule
  | resourceFailed (kind : ResKind) (id : String)
deriving DecidableEq, Repr

/-- An entry of an APISIX module config's `upstreams` array, with the
pydantic `APISIXUpstream` defaults; `idField` is the `id` key the code
writes into the dict when it mutates it. -/
structure AxUpstreamCfg where
  name : Option String := none
  idField : Option String := none
  utype : String := "roundrobin"
  nodes : List (String × Nat) := []
  scheme : String := "https"
  pass_host : String := "pass"
deriving DecidableEq, Repr

/-- The inline `upstream` dict of a route config, read with the
defaults of src/apisix_client.py lines 528-537. -/
structure AxInlineUpstream where
  utype : Option String := none
  nodes : List (String × Nat) := []
  scheme : Option String := none
  pass_host : Option String := none
deriving DecidableEq, Repr

/-- A plugin entry in list form (`name`/`enabled`/`config`). -/
structure AxPluginCfg where
  name : String
  enabled : Bool := true
  config : List (String × String) := []
deriving DecidableEq, Repr

/-- A route config's `plugins` value: already a dict, or a list to be
converted (src/apisix_client.py lines 574-590). -/
inductive PluginsField where
  | asDict (d : List (String × List (String × String)))
  | asList (l : List AxPluginCfg)
deriving DecidableEq, Repr

/-- An entry of an APISIX module config's `routes` array. -/
structure AxRouteCfg where
  name : Option String := none
  uri : String := ""
  inlineUpstream : Option AxInlineUpstream := none
  upstream_id : Option String := none
  service_id : Option String := none
  descr : Option String := none
  plugins : PluginsField := PluginsField.asDict []
deriving DecidableEq, Repr

/-- The `config` dict of an APISIX gateway module. -/
structure AxGatewayCfg where
  upstreams : List AxUpstreamCfg := []
  routes : List AxRouteCfg := []
  global_plugins : List AxPluginCfg := []
deriving DecidableEq, Repr

/-- The `config` dict of a `jwt_config` module, present only when the
dict is truthy. -/
structure JwtCfg where
  secret_key : Option String := none
deriving DecidableEq, Repr

/-- A manifest module as `configure_from_manifest` reads it. The same
opaque `config` dict is viewed as `gw_config` by gateway modules and as
`jwt_config` by jwt modules. -/
structure AxModule where
  module_type : Option String := none
  name : String := ""
  gw_config : AxGatewayCfg := {}
  jwt_config : Option JwtCfg := none
deriving DecidableEq, Repr

/-- A Control-Tower manifest as the APISIX client reads it. -/
structure AxManifest where
  project_id : Option String := none
  project_name : Option String := none
  environment : Option String := none
  modules : List AxModule := []
deriving DecidableEq, Repr

/-- Payload of a consumer PUT (username, desc, plugins). -/
structure ConsumerPayload where
  username : String
  desc : String
  plugins : List (String × List (String × String))
deriving DecidableEq, Repr

/-- Payload of a service PUT. -/
structure ServicePayload where
  name : String
  desc : String
  enable_websocket : Bool
deriving DecidableEq, Repr

/-- Payload of an upstream PUT. -/
structure UpstreamPayload where
  name : String
  utype : String
  nodes : List (String × Nat)
  scheme : String
  pass_host : String
deriving DecidableEq, Repr

/-- Payload of a route PUT. -/
structure RoutePayload where
  name : String
  uri : String
  descr : String
  upstream_id : Option String
  service_id : Option String
  inlineUpstream : Option AxInlineUpstream
  plugins : List (String × List (String × String))
deriving DecidableEq, Repr

/-- The gateway admin store: one id-keyed map per resource kind. -/
structure GatewayState where
  routes : List (String × RoutePayload) := []
  upstreams : List (String × UpstreamPayload) := []
  services : List (String × ServicePayload) := []
  consumers : List (String × ConsumerPayload) := []
  global_rules : List (String × List (String × List (String × String))) := []
deriving DecidableEq, Repr

/-- The `results` dict `configure_from_manifest` returns; success lists
hold the created resources' ids (the code appends the admin API's
response for the resource). -/
structure ConfigResults where
  routes : List String := []
  upstreams : List String := []
  services : List String := []
  consumers : List String := []
  global_rules : List String := []
  errors : List ConfigError := []
deriving DecidableEq, Repr

/-- The gateway-module test of src/apisix_client.py lines 436-438:
`module_type` exactly `"api_gateway"` (no lowering here, unlike the
front door's check) and `"apisix"` in the lowered name. -/
def isApisixGatewayModule (m : AxModule) : Bool :=
  m.module_type = some "api_gateway" && strContains (pyLower m.name) "apisix"

/-- The gateway modules of a manifest, in order. -/
def apisixModulesOf (m : AxManifest) : List AxModule :=
  m.modules.filter isApisixGatewayModule

/-- The `jwt_module` variable after the selection loop: the last module
whose `module_type` is `"jwt_config"`. -/
def jwtModuleOf (m : AxManifest) : Option AxModule :=
  (m.modules.filter fun md => md.module_type = some "jwt_config").getLast?

/-- Consumer username built by `configure_from_manifest` (line 448):
`project_id` with `-` replaced by `_`, then `_consumer`. -/
def consumerUsername (projectId : String) : String :=
  pyReplaceChar projectId '-' '_' ++ "_consumer"

/-- Consumer username `cleanup_project_resources` (line 664) and
`list_project_resources` (line 727) look up: `project_id` then
`-consumer`. -/
def cleanupConsumerUsername (projectId : String) : String :=
  projectId ++ "-consumer"

/-- The consumer payload of lines 447-465. -/
def consumerPayloadOf (projectId projectName environment : String)
    (jwtModule : Option AxModule) : ConsumerPayload :=
  { username := consumerUsername projectId
    desc := "Consumer for project: " ++ projectName ++ " (" ++
      environment ++ ")"
    plugins :=
      match jwtModule with
      | some jm =>
          match jm.jwt_config with
          | some jc =>
              [("jwt-auth",
                [("key", projectId ++ "-key"),
                 ("secret", jc.secret_key.getD "your-secret-key")])]
          | none => []
      | none => [] }

/-- The service payload of lines 475-485, stored at id
`project_id ++ "-service"`. -/
def servicePayloadOf (projectId projectName environment : String) :
    ServicePayload :=
  { name := projectId ++ "-api-service"
    desc := "API Service for " ++ projectName ++ " - Environment: " ++
      environment
    enable_websocket := false }

/-- The id (and new name) given to an `upstreams`-array entry
(lines 502-505): `project_id ++ "-" ++ original name`, the original
name defaulting to `"upstream"`. -/
def upstreamCfgId (projectId : String) (u : AxUpstreamCfg) : String :=
  projectId ++ "-" ++ u.name.getD "upstream"

/-- The in-place mutation of an `upstreams`-array entry: `name` and
`id` both set to the prefixed name. -/
def mutateUpstreamCfg (projectId : String) (u : AxUpstreamCfg) :
    AxUpstreamCfg :=
  { u with name := some (upstreamCfgId projectId u)
           idField := some (upstreamCfgId projectId u) }

/-- The `APISIXUpstream` payload PUT for an `upstreams`-array entry
(built after the mutation, so the name is prefixed). -/
def upstreamCfgPayload (projectId : String) (u : AxUpstreamCfg) :
    UpstreamPayload :=
  { name := upstreamCfgId projectId u
    utype := u.utype
    nodes := u.nodes
    scheme := u.scheme
    pass_host := u.pass_host }

/-- One iteration of the upstreams-array loop (lines 500-514). -/
def upstreamStep (ok : ResKind → String → Bool) (projectId : String)
    (acc : GatewayState × ConfigResults × List AxUpstreamCfg)
    (u : AxUpstreamCfg) : GatewayState × ConfigResults × List AxUpstreamCfg :=
  let uid := upstreamCfgId projectId u
  if ok ResKind.upstreamK uid then
    ({ acc.1 with upstreams := (alistPut acc.1.upstreams uid
        (upstreamCfgPayload projectId u)) },
     { acc.2.1 with upstreams := acc.2.1.upstreams ++ [uid] },
     acc.2.2 ++ [mutateUpstreamCfg projectId u])
  else
    (acc.1,
     { acc.2.1 with errors := (acc.2.1.errors ++
        [ConfigError.resourceFailed ResKind.upstreamK uid]) },
     acc.2.2 ++ [mutateUpstreamCfg projectId u])

/-- Upstreams-array phase of `configure_from_manifest` (lines 499-514):
mutate every entry, attempt every PUT, collect successes and errors. -/
def processUpstreams (ok : ResKind → String → Bool) (projectId : String)
    (us : List AxUpstreamCfg) (gw : GatewayState) (res : ConfigResults) :
    GatewayState × ConfigResults × List AxUpstreamCfg :=
  us.foldl (upstreamStep ok projectId) (gw, res, [])

/-- The id of the upstream extracted from a route's inline `upstream`
dict (lines 521-526): `project_id ++ "-" ++ route name ++ "-upstream"`,
the route name defaulting to `"route"`. -/
def inlineUpstreamId (projectId : String) (r : AxRouteCfg) : String :=
  projectId ++ "-" ++ r.name.getD "route" ++ "-upstream"

/-- The `APISIXUpstream` payload built from an inline upstream dict with
the defaults of lines 528-537. -/
def inlineUpstreamPayload (projectId : String) (r : AxRouteCfg)
    (iu : AxInlineUpstream) : UpstreamPayload :=
  { name := inlineUpstreamId projectId r
    utype := iu.utype.getD "roundrobin"
    nodes := iu.nodes
    scheme := iu.scheme.getD "https"
    pass_host := iu.pass_host.getD "pass" }

/-- One iteration of the inline-upstream extraction loop
(lines 518-547). -/
def inlineStep (ok : ResKind → String → Bool) (projectId : String)
    (acc : GatewayState × ConfigResults × List (String × String))
    (r : AxRouteCfg) : GatewayState × ConfigResults × List (String × String) :=
  match r.inlineUpstream with
  | none => acc
  | some iu =>
    let uid := inlineUpstreamId projectId r
    if ok ResKind.upstreamK uid then
      ({ acc.1 with upstreams := (alistPut acc.1.upstreams uid
          (inlineUpstreamPayload projectId r iu)) },
       { acc.2.1 with upstreams := acc.2.1.upstreams ++ [uid] },
       alistPut acc.2.2 (r.name.getD "route") uid)
    else
      (acc.1,
       { acc.2.1 with errors := (acc.2.1.errors ++
          [ConfigError.resourceFailed ResKind.upstreamK uid]) },
       acc.2.2)

/-- Inline-upstream extraction phase (lines 516-547): routes are not
mutated here; the original-route-name → upstream-id mapping gains an
entry only when the PUT succeeds. -/
def processInlineUpstreams (ok : ResKind → String → Bool)
    (projectId : String) (rs : List AxRouteCfg) (gw : GatewayState)
    (res : ConfigResults) :
    GatewayState × ConfigResults × List (String × String) :=
  rs.foldl (inlineStep ok projectId) (gw, res, [])

/-- Plugin normalization of lines 574-590: a dict is kept as is; a list
keeps its enabled entries, overriding the `jwt-auth` plugin's `key`
with `project_id ++ "-key"`. -/
def convertPlugins (projectId : String) :
    PluginsField → List (String × List (String × String))
  | PluginsField.asDict d => d
  | PluginsField.asList l =>
      l.foldl
        (fun acc pl =>
          if pl.enabled then
            alistPut acc pl.name
              (if pl.name = "jwt-auth" then
                alistPut pl.config "key" (projectId ++ "-key")
               else pl.config)
          else acc)
        []

/-- The id (and new name) given to a route (lines 552-555):
`project_id ++ "-" ++ original name`, defaulting to `"route"`. -/
def routeCfgId (projectId : String) (r : AxRouteCfg) : String :=
  projectId ++ "-" ++ r.name.getD "route"

/-- The in-place mutation of a route config (lines 550-590): prefix the
name, replace a successfully extracted inline upstream by its
`upstream_id` (keeping the inline dict as fallback otherwise), link
inline-upstream-free routes to the project service, set the
description, and normalize `plugins` to dict form. -/
def mutateRouteCfg (projectId projectName : String)
    (mapping : List (String × String)) (r : AxRouteCfg) : AxRouteCfg :=
  let origName := r.name.getD "route"
  let r1 := { r with name := some (routeCfgId projectId r) }
  let r2 :=
    match r.inlineUpstream with
    | some _ =>
        match alistGet mapping origName with
        | some uid => { r1 with upstream_id := some uid, inlineUpstream := none }
        | none => r1
    | none => { r1 with service_id := some (projectId ++ "-service") }
  { r2 with descr := some ("Route for " ++ projectName ++ " - " ++ origName)
            plugins := PluginsField.asDict (convertPlugins projectId r.plugins) }

/-- The `APISIXRoute` payload PUT for a route, read off the mutated
config. -/
def routeCfgPayload (projectId projectName : String)
    (mapping : List (String × String)) (r : AxRouteCfg) : RoutePayload :=
  let r2 := mutateRouteCfg projectId projectName mapping r
  { name := r2.name.getD "route"
    uri := r2.uri
    descr := r2.descr.getD ""
    upstream_id := r2.upstream_id
    service_id := r2.service_id
    inlineUpstream := r2.inlineUpstream
    plugins := convertPlugins projectId r.plugins }

/-- One iteration of the route-creation loop (lines 550-598). -/
def routeStep (ok : ResKind → String → Bool)
    (projectId projectName : String) (mapping : List (String × String))
    (acc : GatewayState × ConfigResults × List AxRouteCfg)
    (r : AxRouteCfg) : GatewayState × ConfigResults × List AxRouteCfg :=
  let rid := routeCfgId projectId r
  if ok ResKind.routeK rid then
    ({ acc.1 with routes := (alistPut acc.1.routes rid
        (routeCfgPayload projectId projectName mapping r)) },
     { acc.2.1 with routes := acc.2.1.routes ++ [rid] },
     acc.2.2 ++ [mutateRouteCfg projectId projectName mapping r])
  else
    (acc.1,
     { acc.2.1 with errors := (acc.2.1.errors ++
        [ConfigError.resourceFailed ResKind.routeK rid]) },
     acc.2.2 ++ [mutateRouteCfg projectId projectName mapping r])

/-- Route-creation phase (lines 549-598): mutate every route config,
attempt every PUT, collect successes and errors. -/
def processRoutes (ok : ResKind → String → Bool)
    (projectId projectName : String) (mapping : List (String × String))
    (rs : List AxRouteCfg) (gw : GatewayState) (res : ConfigResults) :
    GatewayState × ConfigResults × List AxRouteCfg :=
  rs.foldl (routeStep ok projectId projectName mapping) (gw, res, [])

/-- One gateway module's share of the work (the body of the
`for apisix_module in apisix_modules` loop, lines 496-598): upstream
array, inline-upstream extraction, then routes; non-gateway modules are
untouched. Returns the threaded state/results and the module with its
mutated config. -/
def processModule (ok : ResKind → String → Bool)
    (projectId projectName : String) (acc : GatewayState × ConfigResults)
    (md : AxModule) : (GatewayState × ConfigResults) × AxModule :=
  if isApisixGatewayModule md then
    let s1 := processUpstreams ok projectId md.gw_config.upstreams acc.1 acc.2
    let s2 := processInlineUpstreams ok projectId md.gw_config.routes s1.1 s1.2.1
    let s3 := processRoutes ok projectId projectName s2.2.2
      md.gw_config.routes s2.1 s2.2.1
    ((s3.1, s3.2.1),
     { md with gw_config :=
        ({ md.gw_config with upstreams := s1.2.2, routes := s3.2.2 }) })
  else (acc, md)

/-- One iteration of the modules loop: thread state/results and collect
the (possibly mutated) module. -/
def moduleStep (ok : ResKind → String → Bool)
    (projectId projectName : String)
    (acc : (GatewayState × ConfigResults) × List AxModule)
    (md : AxModule) : (GatewayState × ConfigResults) × List AxModule :=
  let step := processModule ok projectId projectName acc.1 md
  (step.1, acc.2 ++ [step.2])

/-- The global-plugins dict collected across all gateway modules
(lines 600-606): enabled entries only, later modules overriding
earlier ones. -/
def globalPluginsOf (m : AxManifest) :
    List (String × List (String × String)) :=
  (apisixModulesOf m).foldl
    (fun acc md =>
      md.gw_config.global_plugins.foldl
        (fun acc pl =>
          if pl.enabled then alistPut acc pl.name pl.config else acc)
        acc)
    []

/-- Embedding of `APISIXClient.configure_from_manifest` (lines 408-620). Returns the
final gateway store, the manifest as mutated in place by the call, and
the `results` dict. Every resource creation is attempted; a failure is
recorded in `errors` and never aborts the remaining resources. -/
def configure_from_manifest (ok : ResKind → String → Bool)
    (gw : GatewayState) (m : AxManifest) :
    GatewayState × AxManifest × ConfigResults :=
  let projectId := m.project_id.getD "unknown"
  let projectName := m.project_name.getD "Unknown Project"
  let environment := m.environment.getD "default"
  if apisixModulesOf m = [] then
    (gw, m, { errors := [ConfigError.noGatewayModule] })
  else
    let uname := consumerUsername projectId
    let s1 :=
      if ok ResKind.consumerK uname then
        ({ gw with consumers := (alistPut gw.consumers uname
            (consumerPayloadOf projectId projectName environment
              (jwtModuleOf m))) },
         ({ consumers := [uname] } : ConfigResults))
      else
        (gw,
         ({ errors := [ConfigError.resourceFailed ResKind.consumerK uname] } :
           ConfigResults))
    let sid := projectId ++ "-service"
    let s2 :=
      if ok ResKind.serviceK sid then
        ({ s1.1 with services := (alistPut s1.1.services sid
            (servicePayloadOf projectId projectName environment)) },
         { s1.2 with services := s1.2.services ++ [sid] })
      else
        (s1.1,
         { s1.2 with errors := (s1.2.errors ++
            [ConfigError.resourceFailed ResKind.serviceK sid]) })
    let s3 := m.modules.foldl (moduleStep ok projectId projectName)
      ((s2.1, s2.2), ([] : List AxModule))
    let gp := globalPluginsOf m
    let grId := projectId ++ "-global-plugins"
    let s4 :=
      if gp ≠ [] then
        if ok ResKind.globalRuleK grId then
          ({ s3.1.1 with global_rules := alistPut s3.1.1.global_rules grId gp },
           { s3.1.2 with global_rules := s3.1.2.global_rules ++ [grId] })
        else
          (s3.1.1,
           { s3.1.2 with errors := (s3.1.2.errors ++
              [ConfigError.resourceFailed ResKind.globalRuleK grId]) })
      else (s3.1.1, s3.1.2)
    (s4.1, { m with modules := s3.2 }, s4.2)

/-- The `results` dict of `cleanup_project_resources`. -/
structure CleanupResults where
  deleted_routes : Nat := 0
  deleted_upstreams : Nat := 0
  deleted_services : Nat := 0
  deleted_consumers : Nat := 0
deriving DecidableEq, Repr

/-- Embedding of `APISIXClient.cleanup_project_resources` (lines 622-677): delete
every route, upstream and service whose stored `name` starts with
`project_id ++ "-"` (deleting a listed resource succeeds), then try to
delete the consumer named `project_id ++ "-consumer"` (counted only if
it exists). -/
def cleanup_project_resources (gw : GatewayState) (projectId : String) :
    GatewayState × CleanupResults :=
  let pfx := projectId ++ "-"
  let keptRoutes := gw.routes.filter fun e => ¬ pyStartsWith e.2.name pfx
  let keptUpstreams := gw.upstreams.filter fun e => ¬ pyStartsWith e.2.name pfx
  let keptServices := gw.services.filter fun e => ¬ pyStartsWith e.2.name pfx
  let uname := cleanupConsumerUsername projectId
  let consumerHit := (alistGet gw.consumers uname).isSome
  ({ routes := keptRoutes
     upstreams := keptUpstreams
     services := keptServices
     consumers := if consumerHit then alistDrop gw.consumers uname
       else gw.consumers
     global_rules := gw.global_rules },
   { deleted_routes := gw.routes.length - keptRoutes.length
     deleted_upstreams := gw.upstreams.length - keptUpstreams.length
     deleted_services := gw.services.length - keptServices.length
     deleted_consumers := if consumerHit then 1 else 0 })

/-
Pure descriptions of what `configure_from_manifest` does, used to state
and prove its properties: the sequence of successful PUTs per resource
kind, the success and error lists, all as functions of the manifest and
the per-resource outcome oracle alone.
-/

/-- Apply a sequence of create-or-replace PUTs to a store. -/
def applyPuts {α : Type} (s : List (String × α)) (σ : List (String × α)) :
    List (String × α) :=
  σ.foldl (fun m p => alistPut m p.1 p.2) s

/-- Left-biased choice on options. -/
def optOr {α : Type} : Option α → Option α → Option α
  | some v, _ => some v
  | none, b => b

/-- The value the last PUT of `k` in the sequence stores, if any. -/
def lastPut {α : Type} : List (String × α) → String → Option α
  | [], _ => none
  | p :: σ, k => optOr (lastPut σ k) (if p.1 = k then some p.2 else none)

/-- The oracle under which every gateway PUT succeeds. -/
def okAll : ResKind → String → Bool := fun _ _ => true

/-- Successful PUTs of the upstreams-array phase. -/
def upstreamPutsOk (ok : ResKind → String → Bool) (projectId : String)
    (us : List AxUpstreamCfg) : List (String × UpstreamPayload) :=
  (us.filter fun u => ok ResKind.upstreamK (upstreamCfgId projectId u)).map
    fun u => (upstreamCfgId projectId u, upstreamCfgPayload projectId u)

/-- Errors of the upstreams-array phase. -/
def upstreamErrsOk (ok : ResKind → String → Bool) (projectId : String)
    (us : List AxUpstreamCfg) : List ConfigError :=
  (us.filter fun u => ¬ ok ResKind.upstreamK (upstreamCfgId projectId u)).map
    fun u => ConfigError.resourceFailed ResKind.upstreamK
      (upstreamCfgId projectId u)

/-- Successful PUTs of the inline-upstream phase. -/
def inlinePutsOk (ok : ResKind → String → Bool) (projectId : String)
    (rs : List AxRouteCfg) : List (String × UpstreamPayload) :=
  rs.filterMap fun r =>
    match r.inlineUpstream with
    | some iu =>
        if ok ResKind.upstreamK (inlineUpstreamId projectId r) then
          some (inlineUpstreamId projectId r,
            inlineUpstreamPayload projectId r iu)
        else none
    | none => none

/-- Errors of the inline-upstream phase. -/
def inlineErrsOk (ok : ResKind → String → Bool) (projectId : String)
    (rs : List AxRouteCfg) : List ConfigError :=
  rs.filterMap fun r =>
    match r.inlineUpstream with
    | some _ =>
        if ok ResKind.upstreamK (inlineUpstreamId projectId r) then none
        else some (ConfigError.resourceFailed ResKind.upstreamK
          (inlineUpstreamId projectId r))
    | none => none

/-- One step of the route-name → extracted-upstream-id mapping. -/
def inlineMapStep (ok : ResKind → String → Bool) (projectId : String)
    (mp : List (String × String)) (r : AxRouteCfg) :
    List (String × String) :=
  match r.inlineUpstream with
  | some _ =>
      if ok ResKind.upstreamK (inlineUpstreamId projectId r) then
        alistPut mp (r.name.getD "route") (inlineUpstreamId projectId r)
      else mp
  | none => mp

/-- The mapping the inline-upstream phase produces. -/
def inlineMappingOk (ok : ResKind → String → Bool) (projectId : String)
    (rs : List AxRouteCfg) : List (String × String) :=
  rs.foldl (inlineMapStep ok projectId) []

/-- Successful PUTs of the route phase, given the inline mapping. -/
def routePutsOk (ok : ResKind → String → Bool)
    (projectId projectName : String) (mapping : List (String × String))
    (rs : List AxRouteCfg) : List (String × RoutePayload) :=
  (rs.filter fun r => ok ResKind.routeK (routeCfgId projectId r)).map
    fun r => (routeCfgId projectId r,
      routeCfgPayload projectId projectName mapping r)

/-- Errors of the route phase. -/
def routeErrsOk (ok : ResKind → String → Bool) (projectId : String)
    (rs : List AxRouteCfg) : List ConfigError :=
  (rs.filter fun r => ¬ ok ResKind.routeK (routeCfgId projectId r)).map
    fun r => ConfigError.resourceFailed ResKind.routeK
      (routeCfgId projectId r)

/-- Successful upstream PUTs of one module (array phase, then inline
phase); empty for non-gateway modules. -/
def modUpstreamPutsOk (ok : ResKind → String → Bool) (projectId : String)
    (md : AxModule) : List (String × UpstreamPayload) :=
  if isApisixGatewayModule md then
    upstreamPutsOk ok projectId md.gw_config.upstreams ++
      inlinePutsOk ok projectId md.gw_config.routes
  else []

/-- Successful route PUTs of one module. -/
def modRoutePutsOk (ok : ResKind → String → Bool)
    (projectId projectName : String) (md : AxModule) :
    List (String × RoutePayload) :=
  if isApisixGatewayModule md then
    routePutsOk ok projectId projectName
      (inlineMappingOk ok projectId md.gw_config.routes)
      md.gw_config.routes
  else []

/-- Errors of one module, in the loop's order: upstream array, inline
upstreams, routes. -/
def modErrsOk (ok : ResKind → String → Bool) (projectId : String)
    (md : AxModule) : List ConfigError :=
  if isApisixGatewayModule md then
    upstreamErrsOk ok projectId md.gw_config.upstreams ++
      inlineErrsOk ok projectId md.gw_config.routes ++
      routeErrsOk ok projectId md.gw_config.routes
  else []

/-- The module after `configure_from_manifest`'s in-place mutation. -/
def mutateModule (ok : ResKind → String → Bool)
    (projectId projectName : String) (md : AxModule) : AxModule :=
  if isApisixGatewayModule md then
    { md with gw_config :=
        ({ md.gw_config with
            upstreams := md.gw_config.upstreams.map
              (mutateUpstreamCfg projectId),
            routes := md.gw_config.routes.map
              (mutateRouteCfg projectId projectName
                (inlineMappingOk ok projectId md.gw_config.routes)) }) }
  else md

/-- The project id `configure_from_manifest` reads
(`manifest.get("project_id", "unknown")`). -/
def manifestPid (m : AxManifest) : String := m.project_id.getD "unknown"

/-- The project name `configure_from_manifest` reads. -/
def manifestPname (m : AxManifest) : String :=
  m.project_name.getD "Unknown Project"

/-- The environment `configure_from_manifest` reads. -/
def manifestEnv (m : AxManifest) : String := m.environment.getD "default"

/-- The consumer PUT of `configure_from_manifest`, when it succeeds. -/
def consumerPutsOk (ok : ResKind → String → Bool) (m : AxManifest) :
    List (String × ConsumerPayload) :=
  if ok ResKind.consumerK (consumerUsername (manifestPid m)) then
    [(consumerUsername (manifestPid m),
      consumerPayloadOf (manifestPid m) (manifestPname m) (manifestEnv m)
        (jwtModuleOf m))]
  else []

/-- The consumer error, when the PUT fails. -/
def consumerErrsOk (ok : ResKind → String → Bool) (m : AxManifest) :
    List ConfigError :=
  if ok ResKind.consumerK (consumerUsername (manifestPid m)) then []
  else [ConfigError.resourceFailed ResKind.consumerK
    (consumerUsername (manifestPid m))]

/-- The service PUT of `configure_from_manifest`, when it succeeds. -/
def servicePutsOk (ok : ResKind → String → Bool) (m : AxManifest) :
    List (String × ServicePayload) :=
  if ok ResKind.serviceK (manifestPid m ++ "-service") then
    [(manifestPid m ++ "-service",
      servicePayloadOf (manifestPid m) (manifestPname m) (manifestEnv m))]
  else []

/-- The service error, when the PUT fails. -/
def serviceErrsOk (ok : ResKind → String → Bool) (m : AxManifest) :
    List ConfigError :=
  if ok ResKind.serviceK (manifestPid m ++ "-service") then []
  else [ConfigError.resourceFailed ResKind.serviceK
    (manifestPid m ++ "-service")]

/-- The global-rule PUT, when global plugins exist and it succeeds. -/
def grPutsOk (ok : ResKind → String → Bool) (m : AxManifest) :
    List (String × List (String × List (String × String))) :=
  if globalPluginsOf m = [] then []
  else if ok ResKind.globalRuleK (manifestPid m ++ "-global-plugins") then
    [(manifestPid m ++ "-global-plugins", globalPluginsOf m)]
  else []

/-- The global-rule error, when global plugins exist and the PUT
fails. -/
def grErrsOk (ok : ResKind → String → Bool) (m : AxManifest) :
    List ConfigError :=
  if globalPluginsOf m = [] then []
  else if ok ResKind.globalRuleK (manifestPid m ++ "-global-plugins") then []
  else [ConfigError.resourceFailed ResKind.globalRuleK
    (manifestPid m ++ "-global-plugins")]

/-- One module's creation attempts with their kinds, in the loop's
order: upstreams array, inline upstreams, routes. -/
def moduleAttemptsOf (projectId : String) (md : AxModule) :
    List (ResKind × String) :=
  if isApisixGatewayModule md then
    (md.gw_config.upstreams.map fun u =>
      (ResKind.upstreamK, upstreamCfgId projectId u))
    ++ (md.gw_config.routes.filterMap fun r =>
        r.inlineUpstream.map fun _ =>
          (ResKind.upstreamK, inlineUpstreamId projectId r))
    ++ (md.gw_config.routes.map fun r =>
        (ResKind.routeK, routeCfgId projectId r))
  else []

/-- Every resource-creation attempt of `configure_from_manifest`, with
its kind, in attempt order; independent of which PUTs succeed. -/
def attemptsOf (m : AxManifest) : List (ResKind × String) :=
  [(ResKind.consumerK, consumerUsername (manifestPid m)),
   (ResKind.serviceK, manifestPid m ++ "-service")]
  ++ m.modules.flatMap (moduleAttemptsOf (manifestPid m))
  ++ (if globalPluginsOf m = [] then []
      else [(ResKind.globalRuleK, manifestPid m ++ "-global-plugins")])

/-- Fixture: a one-route gateway manifest for project `p`. -/
def c8Cfg : AxGatewayCfg := { routes := [{ name := some "r", uri := "/x" }] }

/-- Fixture: its gateway module. -/
def c8Module : AxModule :=
  { module_type := some "api_gateway", name := "apisix-gw",
    gw_config := c8Cfg }

/-- Fixture: the manifest itself. -/
def c8Manifest : AxManifest :=
  { project_id := some "p", modules := [c8Module] }

/-- Fixture: an oracle under which exactly the service PUT fails. -/
def failServiceOk : ResKind → String → Bool :=
  fun k _ => k ≠ ResKind.serviceK

/-- Fixture: a gateway store holding exactly the consumer that
`configure_from_manifest` creates for project `my-proj`. -/
def witnessGateway : GatewayState :=
  { consumers := [("my_proj_consumer",
      { username := "my_proj_consumer", desc := "", plugins := [] })] }

/-- Upstream-creation attempts (ids, across array and inline phases)
of the whole manifest, in attempt order. -/
def upstreamAttemptsOf (m : AxManifest) : List String :=
  m.modules.flatMap fun md =>
    if isApisixGatewayModule md then
      (md.gw_config.upstreams.map
        (upstreamCfgId (m.project_id.getD "unknown"))) ++
        (md.gw_config.routes.filterMap fun r =>
          r.inlineUpstream.map fun _ =>
            inlineUpstreamId (m.project_id.getD "unknown") r)
    else []

/-- Route-creation attempts (ids) of the whole manifest, in attempt
order. -/
def routeAttemptsOf (m : AxManifest) : List String :=
  m.modules.flatMap fun md =>
    if isApisixGatewayModule md then
      md.gw_config.routes.map (routeCfgId (m.project_id.getD "unknown"))
    else []

/-- Global-rule attempts of the whole manifest: one PUT at
`project_id ++ "-global-plugins"` when any enabled global plugin is
configured. -/
def globalRuleAttemptsOf (m : AxManifest) : List String :=
  if globalPluginsOf m ≠ [] then
    [m.project_id.getD "unknown" ++ "-global-plugins"]
  else []

/- Association-list lemmas. -/

theorem alistGet_cons {α : Type} (e : String × α) (t : List (String × α))
    (j : String) :
    alistGet (e :: t) j = if e.1 = j then some e.2 else alistGet t j := by
  by_cases h : e.1 = j <;> simp [alistGet, List.find?_cons, h]

theorem alistGet_mapPut_self {α : Type} (t : List (String × α)) (k : String)
    (v : α) (h : t.any (fun p => p.1 = k) = true) :
    alistGet (t.map fun p => if p.1 = k then (k, v) else p) k = some v := by
  induction t with
  | nil => simp at h
  | cons e t ih =>
    by_cases hek : e.1 = k
    · simp [List.map_cons, alistGet_cons, hek]
    · simp only [List.any_cons, Bool.or_eq_true, decide_eq_true_eq] at h
      rcases h with h | h
      · exact absurd h hek
      · simpa [List.map_cons, alistGet_cons, hek] using ih h

theorem alistGet_mapPut_ne {α : Type} (t : List (String × α)) (k : String)
    (v : α) (j : String) (h : j ≠ k) :
    alistGet (t.map fun p => if p.1 = k then (k, v) else p) j =
      alistGet t j := by
  induction t with
  | nil => simp [alistGet]
  | cons e t ih =>
    simp only [List.map_cons, alistGet_cons]
    by_cases hek : e.1 = k
    · have hkj : ¬ (k = j) := fun hkj => h hkj.symm
      have hej : ¬ (e.1 = j) := by rw [hek]; exact hkj
      rw [if_pos hek]
      simp only [hkj, if_false, hej]
      exact ih
    · rw [if_neg hek]
      by_cases hej : e.1 = j
      · simp [hej]
      · simp only [hej, if_false]
        exact ih

theorem alistGet_alistPut {α : Type} (m : List (String × α)) (k : String)
    (v : α) (j : String) :
    alistGet (alistPut m k v) j = if j = k then some v else alistGet m j := by
  by_cases hany : m.any (fun p => p.1 = k) = true
  · rw [alistPut, if_pos hany]
    by_cases hjk : j = k
    · subst hjk; simp [alistGet_mapPut_self m j v hany]
    · simp [alistGet_mapPut_ne m k v j hjk, hjk]
  · rw [alistPut, if_neg hany]
    have hnone : m.find? (fun p => p.1 = k) = none := by
      rw [List.find?_eq_none]
      intro x hx hxk
      exact hany (List.any_eq_true.mpr ⟨x, hx, hxk⟩)
    by_cases hjk : j = k
    · subst hjk
      have : alistGet m j = none := by simp [alistGet, hnone]
      simp [alistGet, List.find?_append, hnone, List.find?]
    · have hkj : ¬ (k = j) := fun hkj => hjk hkj.symm
      simp [alistGet, List.find?_append, List.find?, hkj, hjk]

theorem alistGet_isSome_iff {α : Type} (m : List (String × α)) (k : String) :
    (alistGet m k).isSome ↔ k ∈ m.map Prod.fst := by
  induction m with
  | nil => simp [alistGet]
  | cons e t ih =>
    by_cases h : e.1 = k
    · simp [alistGet_cons, h]
    · have hne : k ≠ e.1 := fun hk => h hk.symm
      simp [alistGet_cons, h, ih, hne]

theorem alistDrop_eq_self {α : Type} (m : List (String × α)) (k : String)
    (h : k ∉ m.map Prod.fst) : alistDrop m k = m := by
  apply List.filter_eq_self.mpr
  intro x hx
  have hxk : x.1 ≠ k := by
    intro hxk
    exact h (hxk ▸ List.mem_map.mpr ⟨x, hx, rfl⟩)
  simpa using hxk

theorem alistGet_alistDrop_self {α : Type} (m : List (String × α))
    (k : String) : alistGet (alistDrop m k) k = none := by
  have hfind : (alistDrop m k).find? (fun p => p.1 = k) = none := by
    rw [List.find?_eq_none]
    intro x hx
    have := List.of_mem_filter hx
    simpa using this
  simp [alistGet, hfind]

theorem alistGet_of_mem_nodupKeys {α : Type} (m : List (String × α))
    (e : String × α) (hnd : (m.map Prod.fst).Nodup) (hm : e ∈ m) :
    alistGet m e.1 = some e.2 := by
  induction m with
  | nil => cases hm
  | cons f t ih =>
    rcases List.mem_cons.mp hm with rfl | hm'
    · simp [alistGet_cons]
    · have hft : f.1 ∉ t.map Prod.fst := (List.nodup_cons.mp hnd).1
      have hne : ¬ (f.1 = e.1) := by
        intro hfe
        exact hft (hfe ▸ List.mem_map.mpr ⟨e, hm', rfl⟩)
      have := ih (List.nodup_cons.mp hnd).2 hm'
      simpa [alistGet_cons, hne] using this

theorem length_alistDrop_of_mem {α : Type} (m : List (String × α))
    (k : String) (hnd : (m.map Prod.fst).Nodup)
    (hk : k ∈ m.map Prod.fst) :
    (alistDrop m k).length + 1 = m.length := by
  induction m with
  | nil => simp at hk
  | cons f t ih =>
    by_cases hfk : f.1 = k
    · have hft : f.1 ∉ t.map Prod.fst := (List.nodup_cons.mp hnd).1
      have hdrop : alistDrop t k = t := alistDrop_eq_self t k (hfk ▸ hft)
      have hhead : alistDrop (f :: t) k = alistDrop t k := by
        simp [alistDrop, List.filter_cons, hfk]
      rw [hhead, hdrop, List.length_cons]
    · have ht : k ∈ t.map Prod.fst := by
        rcases List.mem_cons.mp hk with hf | ht
        · exact absurd hf.symm hfk
        · exact ht
      have hhead : alistDrop (f :: t) k = f :: alistDrop t k := by
        simp [alistDrop, List.filter_cons, hfk]
      have := ih (List.nodup_cons.mp hnd).2 ht
      rw [hhead, List.length_cons, List.length_cons]
      omega

/-
C1. Routing-mode determination.
-/

/-- Claim C1, counterexample, refuting the claim at two inputs. First:
when the front door has no APISIX client
(`apisix_admin_url`/`apisix_admin_key` unset), a manifest that does
contain a gateway/apisix module is still routed `direct`, so the mode
is not a function of the module list alone. Second: even with the
client configured, the gateway-module test of front_door.py:313 also
requires `"apisix"` to occur in the lowered module *name*, so the
spec's own scenario module (`module_type` `api_gateway`, `name`
`acme-gw`) — a gateway-adapter module in the claim's sense — is routed
`direct`, not `gateway`. -/
theorem C1_counterexample :
    (hasApisixModule
        [{ module_type := "api_gateway", name := "apisix-gateway" }] = true
      ∧ alistGet
          (analyze_and_configure_project false [] "acme"
            { modules :=
                [{ module_type := "api_gateway", name := "apisix-gateway" }] })
          "acme" = some RoutingMode.direct)
    ∧ (({ module_type := "api_gateway", name := "acme-gw" } :
          FDModule).module_type = "api_gateway"
      ∧ hasApisixModule
          [{ module_type := "api_gateway", name := "acme-gw" }] = false
      ∧ alistGet
          (analyze_and_configure_project true [] "acme"
            { modules :=
                [{ module_type := "api_gateway", name := "acme-gw" }] })
          "acme" = some RoutingMode.direct) := by
  refine ⟨⟨by decide, by decide⟩, by decide, by decide, by decide⟩

/-- Claim C1, amended: with the APISIX client configured, the analyze
step records `gateway` mode for the project exactly when the manifest's
module list contains a module whose lowered `module_type` is
`"api_gateway"` AND whose lowered `name` contains `"apisix"`
(`hasApisixModule` — a gateway-typed module with a non-apisix name does
not count), and records `direct` otherwise; the recorded mode is a
function of the module list alone. -/
theorem C1_routing_mode (routing : List (String × RoutingMode))
    (projectId : String) (manifest : FDManifest) :
    alistGet (analyze_and_configure_project true routing projectId manifest)
        projectId =
      some (if hasApisixModule manifest.modules then RoutingMode.apisix
        else RoutingMode.direct) := by
  rw [analyze_and_configure_project, alistGet_alistPut, if_pos rfl]
  rw [routingDecision]
  by_cases h : hasApisixModule manifest.modules
  · simp [h]
  · simp [h]

/-
C3. Project-id extraction.
-/

theorem splitChar_ne_nil (sep : Char) (l : List Char) :
    splitChar sep l ≠ [] := by
  cases l with
  | nil => simp [splitChar]
  | cons c rest =>
    by_cases h : c = sep
    · simp [splitChar, h]
    · rw [splitChar, if_neg h]
      cases hs : splitChar sep rest with
      | nil => simp
      | cons s ss => simp

theorem headD_splitChar (sep : Char) (l : List Char) :
    (splitChar sep l).headD [] = l.takeWhile (· ≠ sep) := by
  induction l with
  | nil => simp [splitChar]
  | cons c rest ih =>
    by_cases h : c = sep
    · simp [splitChar, h, List.takeWhile_cons]
    · rw [splitChar, if_neg h]
      cases hs : splitChar sep rest with
      | nil => exact absurd hs (splitChar_ne_nil sep rest)
      | cons s ss =>
        rw [hs] at ih
        simp only [List.headD_cons] at ih
        simp [List.takeWhile_cons, h, ih]

theorem takeWhile_append_allsep (sep : Char) (a b : List Char)
    (hb : ∀ x ∈ b, x = sep) :
    (a ++ b).takeWhile (· ≠ sep) = a.takeWhile (· ≠ sep) := by
  induction a with
  | nil =>
    cases b with
    | nil => simp
    | cons x b' =>
      have hx : x = sep := hb x (List.mem_cons_self x b')
      simp [List.takeWhile_cons, hx]
  | cons c a' ih =>
    simp only [List.cons_append, List.takeWhile_cons, ne_eq, decide_not] at ih ⊢
    by_cases h : c = sep
    · simp [h]
    · simp [h, ih]

theorem takeWhile_dropTrail (sep : Char) (d : List Char) :
    (dropTrail sep d).takeWhile (· ≠ sep) = d.takeWhile (· ≠ sep) := by
  have hsplit :=
    List.takeWhile_append_dropWhile (fun x => decide (x = sep)) d.reverse
  have hd : d = dropTrail sep d ++ (d.reverse.takeWhile (· = sep)).reverse := by
    have := congrArg List.reverse hsplit
    rw [List.reverse_append, List.reverse_reverse] at this
    exact this.symm
  have hall : ∀ x ∈ (d.reverse.takeWhile (· = sep)).reverse, x = sep := by
    intro x hx
    rw [List.mem_reverse] at hx
    have := List.mem_takeWhile_imp hx
    simpa using this
  calc (dropTrail sep d).takeWhile (· ≠ sep)
      = ((dropTrail sep d) ++
          (d.reverse.takeWhile (· = sep)).reverse).takeWhile (· ≠ sep) :=
        (takeWhile_append_allsep sep _ _ hall).symm
    _ = d.takeWhile (· ≠ sep) := by rw [← hd]

theorem headD_splitChar_pyStrip (sep : Char) (l : List Char) :
    (splitChar sep (pyStrip sep l)).headD [] =
      (l.dropWhile (· = sep)).takeWhile (· ≠ sep) := by
  rw [headD_splitChar, pyStrip, takeWhile_dropTrail]

/-- Claim C3: for every request whose URL path has a non-empty first
segment, `extract_project_id` returns exactly that segment regardless
of the `X-Project-Id` header or the `host` subdomain; with an empty
first segment a non-empty header wins, then the subdomain heuristic;
and when extraction yields nothing, `handle_request` rejects the
request with HTTP 400. -/
theorem C3_extract_project_id (path : String) (xProjectId : Option String)
    (host : String) :
    (specFirstSegment path ≠ [] →
      extract_project_id path xProjectId host = some ⟨specFirstSegment path⟩)
    ∧ (specFirstSegment path = [] → ∀ h, xProjectId = some h → h ≠ "" →
        extract_project_id path xProjectId host = some h)
    ∧ (specFirstSegment path = [] →
        (xProjectId = none ∨ xProjectId = some "") →
        extract_project_id path xProjectId host = extractFromHost host)
    ∧ (extract_project_id path xProjectId host = none →
        handleRequestProjectStage path xProjectId host = Except.error 400) := by
  have hseg : (splitChar '/' (pyStrip '/' path.data)).headD [] =
      specFirstSegment path := headD_splitChar_pyStrip '/' path.data
  refine ⟨?_, ?_, ?_, ?_⟩
  · intro hne
    unfold extract_project_id
    simp only [hseg]
    rw [if_pos hne]
  · intro hempty h hx hne
    unfold extract_project_id
    simp only [hseg]
    rw [if_neg (by simp [hempty]), hx]
    simp [hne]
  · intro hempty hx
    unfold extract_project_id
    simp only [hseg]
    rw [if_neg (by simp [hempty])]
    rcases hx with hx | hx <;> simp [hx]
  · intro hnone
    unfold handleRequestProjectStage
    rw [hnone]

/-- Witness for C3 at a concrete request: path `/acme/chat` wins over a
conflicting header and subdomain. -/
theorem C3_witness :
    specFirstSegment "/acme/chat" ≠ [] ∧
    extract_project_id "/acme/chat" (some "other") "sub.example.com" =
      some ⟨specFirstSegment "/acme/chat"⟩ :=
  ⟨by decide,
   (C3_extract_project_id "/acme/chat" (some "other") "sub.example.com").1
     (by decide)⟩

/- PUT-sequence lemmas, shared by the reference-resolution and gateway
results. -/

theorem optOr_none_left {α : Type} (b : Option α) : optOr none b = b := rfl

theorem optOr_some_left {α : Type} (a : α) (b : Option α) :
    optOr (some a) b = some a := rfl

theorem applyPuts_nil {α : Type} (s : List (String × α)) :
    applyPuts s [] = s := rfl

theorem applyPuts_cons {α : Type} (s : List (String × α))
    (p : String × α) (σ : List (String × α)) :
    applyPuts s (p :: σ) = applyPuts (alistPut s p.1 p.2) σ := rfl

theorem applyPuts_append {α : Type} (s : List (String × α))
    (σ τ : List (String × α)) :
    applyPuts s (σ ++ τ) = applyPuts (applyPuts s σ) τ := by
  simp [applyPuts, List.foldl_append]

theorem alistGet_applyPuts {α : Type} (σ : List (String × α)) :
    ∀ (s : List (String × α)) (k : String),
      alistGet (applyPuts s σ) k = optOr (lastPut σ k) (alistGet s k) := by
  induction σ with
  | nil => intro s k; rfl
  | cons p σ ih =>
    intro s k
    rw [applyPuts_cons, ih, lastPut]
    cases hlp : lastPut σ k with
    | some v => rfl
    | none =>
      rw [optOr_none_left, optOr_none_left, alistGet_alistPut]
      by_cases h : p.1 = k
      · have hk : k = p.1 := h.symm
        rw [if_pos hk, if_pos h, optOr_some_left]
      · have hk : ¬ (k = p.1) := fun hk => h hk.symm
        rw [if_neg hk, if_neg h, optOr_none_left]

theorem lastPut_isSome_of_mem_keys {α : Type} (σ : List (String × α))
    (k : String) (h : k ∈ σ.map Prod.fst) : (lastPut σ k).isSome := by
  induction σ with
  | nil => simp at h
  | cons p σ ih =>
    rw [lastPut]
    cases hlp : lastPut σ k with
    | some v => simp [optOr_some_left]
    | none =>
      rw [List.map_cons, List.mem_cons] at h
      rcases h with hk | hk
      · simp [optOr_none_left, hk.symm]
      · have := ih hk
        rw [hlp] at this
        simp at this

/-
C4. Runtime-reference resolution.
-/

theorem grr_foldl_eq (modules : List RTModule) :
    ∀ s, modules.foldl
      (fun refs m => m.cross_references.foldl
        (fun refs r => alistPut refs r.1 r.2.module_name) refs) s
      = applyPuts s (flatRefs modules) := by
  induction modules with
  | nil => intro s; rfl
  | cons m t ih =>
    intro s
    rw [List.foldl_cons, ih]
    have h1 : flatRefs (m :: t) =
        (m.cross_references.map fun p => (p.1, p.2.module_name)) ++
          flatRefs t := by
      simp [flatRefs]
    rw [h1, applyPuts_append]
    congr 1
    rw [applyPuts, List.foldl_map]

theorem get_runtime_references_eq (modules : List RTModule) :
    get_runtime_references modules = applyPuts [] (flatRefs modules) :=
  grr_foldl_eq modules []

theorem flatRefs_scrub (modules : List RTModule) :
    flatRefs (modules.map scrubRTModule) = flatRefs modules := by
  induction modules with
  | nil => rfl
  | cons m t ih =>
    have hm : (scrubRTModule m).cross_references.map
        (fun p => (p.1, p.2.module_name)) =
        m.cross_references.map (fun p => (p.1, p.2.module_name)) := by
      rw [scrubRTModule, List.map_map]
      rfl
    simp only [flatRefs, List.map_cons, List.flatMap_cons] at *
    rw [hm, ih]

/-- Claim C4, counterexample: a required reference with source
`secret-store://missing/path`, no `module_name` and no default does not
abort resolution — `get_runtime_references` is total and returns the
full map, binding the reference name to the (null) `module_name`; no
required/default/scheme handling exists at this layer. -/
theorem C4_counterexample :
    get_runtime_references [reqRTModule] = [("api_key", none)] := by decide

/-- Claim C4, amended: runtime-reference resolution never fails: it
ignores `source`, `required` and `default` entirely (scrubbing them
leaves the result unchanged) and produces a binding for every
cross-reference name of every module. -/
theorem C4_resolution_total (modules : List RTModule) :
    get_runtime_references (modules.map scrubRTModule) =
      get_runtime_references modules
    ∧ ∀ m ∈ modules, ∀ p ∈ m.cross_references,
        (alistGet (get_runtime_references modules) p.1).isSome := by
  constructor
  · rw [get_runtime_references_eq, get_runtime_references_eq,
      flatRefs_scrub]
  · intro m hm p hp
    rw [get_runtime_references_eq, alistGet_applyPuts]
    have hkey : p.1 ∈ (flatRefs modules).map Prod.fst := by
      have hmem : (p.1, p.2.module_name) ∈ flatRefs modules := by
        rw [flatRefs]
        exact List.mem_flatMap.mpr ⟨m, hm, List.mem_map.mpr ⟨p, hp, rfl⟩⟩
      exact List.mem_map.mpr ⟨(p.1, p.2.module_name), hmem, rfl⟩
    have hsome := lastPut_isSome_of_mem_keys (flatRefs modules) p.1 hkey
    cases hlp : lastPut (flatRefs modules) p.1 with
    | some v => simp [optOr_some_left]
    | none => rw [hlp] at hsome; simp at hsome

/-- Witness for C4 at the concrete failing-scenario module: the
required reference's name is still bound in the result. -/
theorem C4_witness :
    (alistGet (get_runtime_references [reqRTModule]) "api_key").isSome :=
  (C4_resolution_total [reqRTModule]).2 reqRTModule (by simp)
    ("api_key", reqCrossRef) (by simp [reqRTModule])

/-
Module-pool lemmas (C2, C5, C6).
-/

theorem foldlMin_mem (rest : Pool) :
    ∀ e : String × ModuleMeta,
      rest.foldl
        (fun best x => if x.2.last_used < best.2.last_used then x else best)
        e ∈ e :: rest := by
  induction rest with
  | nil => intro e; simp
  | cons x t ih =>
    intro e
    rw [List.foldl_cons]
    have h := ih (if x.2.last_used < e.2.last_used then x else e)
    by_cases hx : x.2.last_used < e.2.last_used
    · rw [if_pos hx] at h ⊢
      rcases List.mem_cons.mp h with h1 | h1
      · rw [h1]
        exact List.mem_cons.mpr (Or.inr (List.mem_cons_self x t))
      · exact List.mem_cons.mpr (Or.inr (List.mem_cons.mpr (Or.inr h1)))
    · rw [if_neg hx] at h ⊢
      rcases List.mem_cons.mp h with h1 | h1
      · rw [h1]
        exact List.mem_cons_self e (x :: t)
      · exact List.mem_cons.mpr (Or.inr (List.mem_cons.mpr (Or.inr h1)))

theorem foldlMin_le (rest : Pool) :
    ∀ e : String × ModuleMeta,
      (rest.foldl
        (fun best x => if x.2.last_used < best.2.last_used then x else best)
        e).2.last_used ≤ e.2.last_used ∧
      ∀ x ∈ rest,
        (rest.foldl
          (fun best x => if x.2.last_used < best.2.last_used then x else best)
          e).2.last_used ≤ x.2.last_used := by
  induction rest with
  | nil => intro e; exact ⟨Nat.le_refl _, by simp⟩
  | cons x t ih =>
    intro e
    rw [List.foldl_cons]
    obtain ⟨h1, h2⟩ := ih (if x.2.last_used < e.2.last_used then x else e)
    have hxe : (if x.2.last_used < e.2.last_used then x else e).2.last_used ≤
        e.2.last_used := by
      by_cases hx : x.2.last_used < e.2.last_used
      · rw [if_pos hx]; exact Nat.le_of_lt hx
      · rw [if_neg hx]
    have hxx : (if x.2.last_used < e.2.last_used then x else e).2.last_used ≤
        x.2.last_used := by
      by_cases hx : x.2.last_used < e.2.last_used
      · rw [if_pos hx]
      · rw [if_neg hx]; exact Nat.le_of_not_lt hx
    refine ⟨Nat.le_trans h1 hxe, ?_⟩
    intro y hy
    rcases List.mem_cons.mp hy with rfl | hy
    · exact Nat.le_trans h1 hxx
    · exact h2 y hy

theorem minLastUsedEntry_spec (p : Pool) (hne : p ≠ []) :
    ∃ e, minLastUsedEntry p = some e ∧ e ∈ p ∧
      ∀ x ∈ p, e.2.last_used ≤ x.2.last_used := by
  cases p with
  | nil => exact absurd rfl hne
  | cons f t =>
    refine ⟨_, rfl, foldlMin_mem t f, ?_⟩
    intro x hx
    obtain ⟨h1, h2⟩ := foldlMin_le t f
    rcases List.mem_cons.mp hx with rfl | hx
    · exact h1
    · exact h2 x hx

theorem evictOldest_spec (p : Pool) (hne : p ≠ [])
    (hnd : (p.map Prod.fst).Nodup) :
    ∃ e, minLastUsedEntry p = some e ∧ e ∈ p ∧
      (∀ x ∈ p, e.2.last_used ≤ x.2.last_used) ∧
      evictOldestModule p = (alistDrop p e.1, [e.1]) ∧
      (alistDrop p e.1).length + 1 = p.length := by
  obtain ⟨e, hmin, hmem, hle⟩ := minLastUsedEntry_spec p hne
  have hget : alistGet p e.1 = some e.2 :=
    alistGet_of_mem_nodupKeys p e hnd hmem
  have hkeys : e.1 ∈ p.map Prod.fst :=
    (alistGet_isSome_iff p e.1).mp (by rw [hget]; rfl)
  refine ⟨e, hmin, hmem, hle, ?_, length_alistDrop_of_mem p e.1 hnd hkeys⟩
  simp only [evictOldestModule, hmin]
  rw [removeModule, if_pos (by rw [hget]; rfl)]

theorem createAndInsert_events (poolSize now : Nat) (createOk : Bool)
    (key : String) (q : Pool) (ev : List String) :
    (createAndInsert poolSize now createOk key q ev).1 =
      (createAndInsert poolSize now createOk key q []).1
    ∧ (createAndInsert poolSize now createOk key q ev).2.1 =
      (createAndInsert poolSize now createOk key q []).2.1
    ∧ (createAndInsert poolSize now createOk key q ev).2.2 =
      ev ++ (createAndInsert poolSize now createOk key q []).2.2 := by
  cases createOk with
  | true => refine ⟨rfl, rfl, ?_⟩; simp [createAndInsert]
  | false => refine ⟨rfl, rfl, ?_⟩; simp [createAndInsert]

/-
C6. Health-checked reuse.
-/

/-- Claim C6: when an instance exists for the key and its health probe
reports ready, `get_or_create_module` refreshes `last_used` and returns
the existing instance with no shutdown and no creation; when the probe
is not ready, the call behaves exactly like a miss on the pool with the
instance removed, preceded by that instance's shutdown — and with a
successful create it ends in a fresh instance, not an error. -/
theorem C6_health_checked_reuse (poolSize now : Nat) (key : String)
    (p : Pool) (createOk : Bool) (meta : ModuleMeta)
    (hhit : alistGet p key = some meta) :
    get_or_create_module poolSize now true createOk key p
        = (refreshLastUsed p key now, PoolStepResult.reused, [])
    ∧ (get_or_create_module poolSize now false createOk key p).1
        = (get_or_create_module poolSize now false createOk key
            (alistDrop p key)).1
    ∧ (get_or_create_module poolSize now false createOk key p).2.1
        = (get_or_create_module poolSize now false createOk key
            (alistDrop p key)).2.1
    ∧ (get_or_create_module poolSize now false createOk key p).2.2
        = key :: (get_or_create_module poolSize now false createOk key
            (alistDrop p key)).2.2
    ∧ (createOk = true →
        (get_or_create_module poolSize now false createOk key p).2.1
          = PoolStepResult.created) := by
  have hdropped : alistGet (alistDrop p key) key = none :=
    alistGet_alistDrop_self p key
  have hrm : removeModule p key = (alistDrop p key, [key]) := by
    rw [removeModule, if_pos (by rw [hhit]; rfl)]
  have hl : get_or_create_module poolSize now false createOk key p =
      createAndInsert poolSize now createOk key (alistDrop p key) [key] := by
    simp [get_or_create_module, hhit, hrm]
  have hr : get_or_create_module poolSize now false createOk key
      (alistDrop p key) =
      createAndInsert poolSize now createOk key (alistDrop p key) [] := by
    simp [get_or_create_module, hdropped]
  obtain ⟨he1, he2, he3⟩ :=
    createAndInsert_events poolSize now createOk key (alistDrop p key) [key]
  refine ⟨by simp [get_or_create_module, hhit], ?_, ?_, ?_, ?_⟩
  · rw [hl, hr, he1]
  · rw [hl, hr, he2]
  · rw [hl, hr, he3]; rfl
  · intro hok
    subst hok
    rw [hl]
    simp [createAndInsert]

/-- Witness for C6 at a one-entry pool: a ready instance is reused with
its `last_used` refreshed, and an unready one is shut down first. -/
theorem C6_witness :
    alistGet [("k", (⟨0, 0⟩ : ModuleMeta))] "k" = some ⟨0, 0⟩
    ∧ get_or_create_module 4 7 true true "k" [("k", ⟨0, 0⟩)]
        = ([("k", ⟨0, 7⟩)], PoolStepResult.reused, [])
    ∧ (get_or_create_module 4 7 false true "k" [("k", ⟨0, 0⟩)]).2.2
        = "k" :: (get_or_create_module 4 7 false true "k"
            (alistDrop [("k", (⟨0, 0⟩ : ModuleMeta))] "k")).2.2 := by
  have h := C6_health_checked_reuse 4 7 "k" [("k", ⟨0, 0⟩)] true ⟨0, 0⟩
    (by decide)
  refine ⟨by decide, ?_, h.2.2.2.1⟩
  rw [h.1]
  decide

/-
C5. Initialization failure.
-/

/-- Claim C5, counterexample: when the key held an unhealthy instance
and the fresh create then raises, the pool's contents for that key ARE
changed — the unhealthy instance was already removed — refuting the
claim's "the pool's contents for that key are unchanged". -/
theorem C5_counterexample :
    alistGet [("k", (⟨0, 0⟩ : ModuleMeta))] "k" = some ⟨0, 0⟩
    ∧ (get_or_create_module 10 1 false false "k" [("k", ⟨0, 0⟩)]).2.1
        = PoolStepResult.createFailed
    ∧ alistGet (get_or_create_module 10 1 false false "k"
        [("k", ⟨0, 0⟩)]).1 "k" = none := by
  refine ⟨by decide, by decide, by decide⟩

/-- Claim C5, amended: when `_create_module` (the module's `initialize`)
raises on the create path, the new instance is never inserted — the
resulting pool has no entry for the key, and on a plain miss the pool
is exactly unchanged (a pre-existing unhealthy instance, however, has
already been removed) — and `route_to_module` maps the failure to
a 500. -/
theorem C5_init_failure (poolSize now : Nat) (key : String) (p : Pool)
    (healthReady : Bool) (processStatus : Nat)
    (h : alistGet p key = none ∨ healthReady = false) :
    alistGet (get_or_create_module poolSize now healthReady false key p).1
        key = none
    ∧ (alistGet p key = none →
        (get_or_create_module poolSize now healthReady false key p).1 = p)
    ∧ (get_or_create_module poolSize now healthReady false key p).2.1
        = PoolStepResult.createFailed
    ∧ route_to_module_status true true
        (get_or_create_module poolSize now healthReady false key p).2.1
        processStatus = 500 := by
  cases hget : alistGet p key with
  | none =>
    have hred : get_or_create_module poolSize now healthReady false key p
        = (p, PoolStepResult.createFailed, []) := by
      simp [get_or_create_module, hget, createAndInsert]
    rw [hred]
    exact ⟨hget, fun _ => rfl, rfl, rfl⟩
  | some meta =>
    have hfalse : healthReady = false := by
      rcases h with h | h
      · rw [hget] at h; cases h
      · exact h
    subst hfalse
    have hrm : removeModule p key = (alistDrop p key, [key]) := by
      rw [removeModule, if_pos (by rw [hget]; rfl)]
    have hred : get_or_create_module poolSize now false false key p
        = (alistDrop p key, PoolStepResult.createFailed, [key]) := by
      simp [get_or_create_module, hget, hrm, createAndInsert]
    rw [hred]
    refine ⟨alistGet_alistDrop_self p key, ?_, rfl, rfl⟩
    intro hn
    exact Option.noConfusion hn

/-- Witness for C5 at an empty pool: the failed create leaves the pool
empty and the dispatcher answers 500. -/
theorem C5_witness :
    (get_or_create_module 10 1 true false "k" ([] : Pool)).1 = []
    ∧ route_to_module_status true true
        (get_or_create_module 10 1 true false "k" ([] : Pool)).2.1 5
        = 500 := by
  have h := C5_init_failure 10 1 "k" [] true 5 (Or.inl (by decide))
  exact ⟨h.2.1 (by decide), h.2.2.2⟩

/-
C2. Pool-size invariant and LRU eviction.
-/

/-- Claim C2, counterexample: with `module_pool_size = 0` the pool is
"at capacity" while empty, the eviction pass removes nothing (the
metadata table is empty), and the insert leaves the pool holding one
instance — more than `module_pool_size`. -/
theorem C2_counterexample :
    (get_or_create_module 0 1 true true "a" []).1.length = 1
    ∧ ¬ ((get_or_create_module 0 1 true true "a" []).1.length ≤ 0)
    ∧ (get_or_create_module 0 1 true true "a" []).2.2 = [] := by
  refine ⟨by decide, by decide, by decide⟩

/-- Claim C2, amended: for `module_pool_size ≥ 1`, a pool with distinct
keys holding at most `module_pool_size` instances still holds at most
that many after any `get_or_create_module` call; and when a new
instance is inserted while the pool is at capacity, exactly one
instance — one whose `last_used` is minimal — is evicted, its shutdown
called exactly once. -/
theorem C2_pool_invariant (poolSize now : Nat) (key : String) (p : Pool)
    (healthReady createOk : Bool) (hcap : 1 ≤ poolSize)
    (hnd : (p.map Prod.fst).Nodup) (hlen : p.length ≤ poolSize) :
    (get_or_create_module poolSize now healthReady createOk key p).1.length
        ≤ poolSize
    ∧ (alistGet p key = none → p.length = poolSize → createOk = true →
        ∃ e, minLastUsedEntry p = some e
          ∧ e ∈ p
          ∧ (∀ x ∈ p, e.2.last_used ≤ x.2.last_used)
          ∧ (get_or_create_module poolSize now healthReady createOk key p).2.2
              = [e.1]
          ∧ (get_or_create_module poolSize now healthReady createOk key p).1
              = alistDrop p e.1 ++ [(key, ⟨now, now⟩)]
          ∧ (get_or_create_module poolSize now healthReady createOk
              key p).1.length = poolSize) := by
  constructor
  · cases hget : alistGet p key with
    | some meta =>
      cases healthReady with
      | true =>
        have : (refreshLastUsed p key now).length = p.length := by
          simp [refreshLastUsed]
        simp only [get_or_create_module, hget]
        simpa [this] using hlen
      | false =>
        have hkey : key ∈ p.map Prod.fst :=
          (alistGet_isSome_iff p key).mp (by rw [hget]; rfl)
        have hdl : (alistDrop p key).length + 1 = p.length :=
          length_alistDrop_of_mem p key hnd hkey
        have hrm : removeModule p key = (alistDrop p key, [key]) := by
          rw [removeModule, if_pos (by rw [hget]; rfl)]
        have hred : get_or_create_module poolSize now false createOk key p
            = createAndInsert poolSize now createOk key (alistDrop p key)
                [key] := by
          simp [get_or_create_module, hget, hrm]
        rw [hred]
        cases createOk with
        | false => simp [createAndInsert]; omega
        | true =>
          have hnoev : ¬ (poolSize ≤ (alistDrop p key).length) := by omega
          simp [createAndInsert, hnoev]
          omega
    | none =>
      have hred : get_or_create_module poolSize now healthReady createOk key p
          = createAndInsert poolSize now createOk key p [] := by
        simp [get_or_create_module, hget]
      rw [hred]
      cases createOk with
      | false => simpa [createAndInsert] using hlen
      | true =>
        by_cases hfull : poolSize ≤ p.length
        · have hpe : p ≠ [] := by
            intro hnil
            rw [hnil] at hfull
            simp at hfull
            omega
          obtain ⟨e, hmin, hmem, hle, hev, hdl⟩ := evictOldest_spec p hpe hnd
          simp [createAndInsert, hfull, hev]
          omega
        · simp [createAndInsert, hfull]
          omega
  · intro hmiss hfull hok
    subst hok
    have hpe : p ≠ [] := by
      intro hnil
      rw [hnil] at hfull
      simp at hfull
      omega
    obtain ⟨e, hmin, hmem, hle, hev, hdl⟩ := evictOldest_spec p hpe hnd
    have hfull' : poolSize ≤ p.length := by omega
    have hred : get_or_create_module poolSize now healthReady true key p
        = ((alistDrop p e.1) ++ [(key, ⟨now, now⟩)],
           PoolStepResult.created, [e.1]) := by
      simp [get_or_create_module, hmiss, createAndInsert, hfull', hev]
    rw [hred]
    refine ⟨e, hmin, hmem, hle, rfl, rfl, ?_⟩
    simp
    omega

/-- Witness for C2 at a full two-slot pool: inserting a third key
evicts exactly the least-recently-used instance `"a"` and keeps the
pool at its bound. -/
theorem C2_witness :
    (get_or_create_module 2 5 true true "c"
        [("a", ⟨0, 0⟩), ("b", ⟨1, 1⟩)]).2.2 = ["a"]
    ∧ (get_or_create_module 2 5 true true "c"
        [("a", ⟨0, 0⟩), ("b", ⟨1, 1⟩)]).1.length ≤ 2 := by
  have h := C2_pool_invariant 2 5 "c" [("a", ⟨0, 0⟩), ("b", ⟨1, 1⟩)]
    true true (by decide) (by decide) (by decide)
  obtain ⟨e, hmin, _, _, hevts, _, _⟩ := h.2 (by decide) (by decide) rfl
  have he : e = ("a", (⟨0, 0⟩ : ModuleMeta)) := by
    have : minLastUsedEntry [("a", (⟨0, 0⟩ : ModuleMeta)), ("b", ⟨1, 1⟩)]
        = some ("a", ⟨0, 0⟩) := by decide
    rw [this] at hmin
    exact (Option.some_inj.mp hmin).symm
  refine ⟨?_, h.1⟩
  rw [hevts, he]

/-
C7. Gateway proxy path.
-/

/-- Claim C7, counterexample: for a request whose method is not POST,
PUT or PATCH, `route_through_apisix` forwards no body at all — a GET
carrying a body is not forwarded verbatim. -/
theorem C7_counterexample :
    (buildForwardedRequest "p"
        { method := "GET", path := "/p/x", headers := [], query := [],
          body := [42] }).body = none
    ∧ ({ method := "GET", path := "/p/x", headers := [], query := [],
          body := [42] } : ProxyRequest).body ≠ [] := by
  refine ⟨by decide, by decide⟩

/-- Claim C7, amended: the proxy path drops the `host` header and keeps
every other header, ensures the forwarded path starts with
`/<project_id>` (prefixing only when the path does not already start
with it), forwards the body verbatim for POST/PUT/PATCH (other methods
are forwarded without a body), relays the upstream status, headers and
body unchanged, and maps timeouts to 504 and other transport failures
to 502. -/
theorem C7_proxy_path (projectId : String) (req : ProxyRequest)
    (upstream : ForwardedRequest → UpstreamOutcome) :
    ("host" ∉ (buildForwardedRequest projectId req).headers.map Prod.fst)
    ∧ (∀ h ∈ req.headers, h.1 ≠ "host" →
        h ∈ (buildForwardedRequest projectId req).headers)
    ∧ pyStartsWith (buildForwardedRequest projectId req).path
        ("/" ++ projectId) = true
    ∧ (pyStartsWith req.path ("/" ++ projectId) = true →
        (buildForwardedRequest projectId req).path = req.path)
    ∧ (pyStartsWith req.path ("/" ++ projectId) = false →
        (buildForwardedRequest projectId req).path =
          "/" ++ projectId ++ req.path)
    ∧ (req.method = "POST" ∨ req.method = "PUT" ∨ req.method = "PATCH" →
        (buildForwardedRequest projectId req).body = some req.body)
    ∧ (∀ s hs b,
        upstream (buildForwardedRequest projectId req) =
          UpstreamOutcome.ok s hs b →
        route_through_apisix true projectId req upstream =
          FDResponse.response s hs b)
    ∧ (upstream (buildForwardedRequest projectId req) =
          UpstreamOutcome.timeoutErr →
        route_through_apisix true projectId req upstream =
          FDResponse.httpError 504)
    ∧ (upstream (buildForwardedRequest projectId req) =
          UpstreamOutcome.transportErr →
        route_through_apisix true projectId req upstream =
          FDResponse.httpError 502) := by
  refine ⟨?_, ?_, ?_, ?_, ?_, ?_, ?_, ?_, ?_⟩
  · intro hmem
    rw [buildForwardedRequest] at hmem
    simp only [List.mem_map] at hmem
    obtain ⟨x, hx, hfst⟩ := hmem
    have := List.of_mem_filter hx
    rw [hfst] at this
    simp at this
  · intro h hh hne
    rw [buildForwardedRequest]
    simp only []
    exact List.mem_filter.mpr ⟨hh, by simpa using hne⟩
  · rw [buildForwardedRequest]
    by_cases hs : pyStartsWith req.path ("/" ++ projectId)
    · simp [hs]
    · simp only [hs, Bool.false_eq_true, if_false]
      rw [pyStartsWith]
      have : ("/" ++ projectId ++ req.path).data =
          ("/" ++ projectId).data ++ req.path.data := String.data_append _ _
      rw [this, List.isPrefixOf_iff_prefix]
      exact List.prefix_append _ _
  · intro hs
    rw [buildForwardedRequest]
    simp [hs]
  · intro hs
    rw [buildForwardedRequest]
    simp [hs]
  · intro hm
    rw [buildForwardedRequest]
    rcases hm with hm | hm | hm <;> simp [hm]
  · intro s hs b hup
    rw [route_through_apisix]
    simp [hup]
  · intro hup
    rw [route_through_apisix]
    simp [hup]
  · intro hup
    rw [route_through_apisix]
    simp [hup]

/-- Witness for C7 at a concrete POST request and a concrete upstream
answer: body forwarded verbatim and the upstream response relayed. -/
theorem C7_witness :
    (("POST" : String) = "POST" ∨ ("POST" : String) = "PUT" ∨
      ("POST" : String) = "PATCH")
    ∧ (buildForwardedRequest "acme"
        { method := "POST", path := "/x", headers := [("host", "fd")],
          query := [], body := [1, 2] }).body = some [1, 2] := by
  have h := C7_proxy_path "acme"
    { method := "POST", path := "/x", headers := [("host", "fd")],
      query := [], body := [1, 2] }
    (fun _ => UpstreamOutcome.ok 200 [] [])
  exact ⟨Or.inl rfl, h.2.2.2.2.2.1 (Or.inl rfl)⟩

/-
C10. Consumer naming mismatch between configuration and cleanup.
-/

theorem consumerUsername_ne_cleanup (p q : String) :
    consumerUsername p ≠ cleanupConsumerUsername q := by
  intro heq
  have hd := congrArg String.data heq
  rw [consumerUsername, cleanupConsumerUsername, String.data_append,
    String.data_append] at hd
  have hrepl : (pyReplaceChar p '-' '_').data =
      p.data.map (fun x => if x = '-' then '_' else x) := rfl
  rw [hrepl] at hd
  have hlen : ("_consumer" : String).data.length =
      ("-consumer" : String).data.length := by decide
  obtain ⟨-, h2⟩ := List.append_inj' hd hlen
  exact absurd h2 (by decide)

/-- Claim C10: the consumer `configure_from_manifest` creates is named
by replacing `-` with `_` and appending `_consumer`, while cleanup (and
resource listing) look up `project_id ++ "-consumer"`; the two names
are never equal — for any pair of project ids — so cleanup never
deletes a consumer this client created and reports
`deleted_consumers = 0` on any store populated only by this client. -/
theorem C10_consumer_name_mismatch (gw : GatewayState) (projectId : String)
    (h : ∀ k ∈ gw.consumers.map Prod.fst, ∃ q, k = consumerUsername q) :
    (∀ p q : String, consumerUsername p ≠ cleanupConsumerUsername q)
    ∧ (cleanup_project_resources gw projectId).1.consumers = gw.consumers
    ∧ (cleanup_project_resources gw projectId).2.deleted_consumers = 0 := by
  have hmiss :
      (alistGet gw.consumers (cleanupConsumerUsername projectId)).isSome =
        false := by
    cases hsome :
      (alistGet gw.consumers (cleanupConsumerUsername projectId)).isSome with
    | false => rfl
    | true =>
      have hmem := (alistGet_isSome_iff gw.consumers
        (cleanupConsumerUsername projectId)).mp hsome
      obtain ⟨q, hq⟩ := h _ hmem
      exact absurd hq.symm (consumerUsername_ne_cleanup q projectId)
  cases hfind : alistGet gw.consumers (cleanupConsumerUsername projectId) with
  | some v => rw [hfind] at hmiss; simp at hmiss
  | none =>
    refine ⟨consumerUsername_ne_cleanup, ?_, ?_⟩
    · simp [cleanup_project_resources, hfind]
    · simp [cleanup_project_resources, hfind]

/-- Witness for C10 on a store holding the consumer created for
project `my-proj`: cleaning up `my-proj` deletes no consumer. -/
theorem C10_witness :
    (cleanup_project_resources witnessGateway "my-proj").1.consumers =
      witnessGateway.consumers
    ∧ (cleanup_project_resources witnessGateway "my-proj").2.deleted_consumers
      = 0 := by
  have hh : ∀ k ∈ witnessGateway.consumers.map Prod.fst,
      ∃ q, k = consumerUsername q := by
    intro k hk
    simp [witnessGateway] at hk
    exact ⟨"my-proj", by rw [hk]; decide⟩
  have h := C10_consumer_name_mismatch witnessGateway "my-proj" hh
  exact ⟨h.2.1, h.2.2⟩

/-
C8/C9. Characterization of `configure_from_manifest` as PUT sequences.
-/

theorem foldl_upstreamStep (ok : ResKind → String → Bool) (pid : String)
    (us : List AxUpstreamCfg) :
    ∀ (gw : GatewayState) (res : ConfigResults) (acc : List AxUpstreamCfg),
      us.foldl (upstreamStep ok pid) (gw, res, acc)
        = ({ gw with upstreams :=
              applyPuts gw.upstreams (upstreamPutsOk ok pid us) },
           { res with
              upstreams :=
                res.upstreams ++ (upstreamPutsOk ok pid us).map Prod.fst,
              errors := res.errors ++ upstreamErrsOk ok pid us },
           acc ++ us.map (mutateUpstreamCfg pid)) := by
  induction us with
  | nil =>
    intro gw res acc
    simp [upstreamPutsOk, upstreamErrsOk, applyPuts_nil]
  | cons u t ih =>
    intro gw res acc
    rw [List.foldl_cons]
    cases hok : ok ResKind.upstreamK (upstreamCfgId pid u) with
    | true =>
      have hstep : upstreamStep ok pid (gw, res, acc) u =
          ({ gw with upstreams := (alistPut gw.upstreams
              (upstreamCfgId pid u) (upstreamCfgPayload pid u)) },
           { res with upstreams :=
              res.upstreams ++ [upstreamCfgId pid u] },
           acc ++ [mutateUpstreamCfg pid u]) := by
        simp [upstreamStep, hok]
      rw [hstep, ih]
      have hputs : upstreamPutsOk ok pid (u :: t) =
          (upstreamCfgId pid u, upstreamCfgPayload pid u) ::
            upstreamPutsOk ok pid t := by
        simp [upstreamPutsOk, List.filter_cons, hok]
      have herrs : upstreamErrsOk ok pid (u :: t) =
          upstreamErrsOk ok pid t := by
        simp [upstreamErrsOk, List.filter_cons, hok]
      cases gw
      cases res
      simp [hputs, herrs, applyPuts_cons]
    | false =>
      have hstep : upstreamStep ok pid (gw, res, acc) u =
          (gw,
           { res with errors := (res.errors ++
              [ConfigError.resourceFailed ResKind.upstreamK
                (upstreamCfgId pid u)]) },
           acc ++ [mutateUpstreamCfg pid u]) := by
        simp [upstreamStep, hok]
      rw [hstep, ih]
      have hputs : upstreamPutsOk ok pid (u :: t) =
          upstreamPutsOk ok pid t := by
        simp [upstreamPutsOk, List.filter_cons, hok]
      have herrs : upstreamErrsOk ok pid (u :: t) =
          ConfigError.resourceFailed ResKind.upstreamK (upstreamCfgId pid u)
            :: upstreamErrsOk ok pid t := by
        simp [upstreamErrsOk, List.filter_cons, hok]
      cases gw
      cases res
      simp [hputs, herrs]

theorem foldl_inlineStep (ok : ResKind → String → Bool) (pid : String)
    (rs : List AxRouteCfg) :
    ∀ (gw : GatewayState) (res : ConfigResults) (mp : List (String × String)),
      rs.foldl (inlineStep ok pid) (gw, res, mp)
        = ({ gw with upstreams :=
              applyPuts gw.upstreams (inlinePutsOk ok pid rs) },
           { res with
              upstreams :=
                res.upstreams ++ (inlinePutsOk ok pid rs).map Prod.fst,
              errors := res.errors ++ inlineErrsOk ok pid rs },
           rs.foldl (inlineMapStep ok pid) mp) := by
  induction rs with
  | nil =>
    intro gw res mp
    simp [inlinePutsOk, inlineErrsOk, applyPuts_nil]
  | cons r t ih =>
    intro gw res mp
    rw [List.foldl_cons, List.foldl_cons]
    cases hiu : r.inlineUpstream with
    | none =>
      have hstep : inlineStep ok pid (gw, res, mp) r = (gw, res, mp) := by
        simp [inlineStep, hiu]
      have hmap : inlineMapStep ok pid mp r = mp := by
        simp [inlineMapStep, hiu]
      have hputs : inlinePutsOk ok pid (r :: t) = inlinePutsOk ok pid t := by
        simp [inlinePutsOk, List.filterMap_cons, hiu]
      have herrs : inlineErrsOk ok pid (r :: t) = inlineErrsOk ok pid t := by
        simp [inlineErrsOk, List.filterMap_cons, hiu]
      rw [hstep, hmap, ih, hputs, herrs]
    | some iu =>
      cases hok : ok ResKind.upstreamK (inlineUpstreamId pid r) with
      | true =>
        have hstep : inlineStep ok pid (gw, res, mp) r =
            ({ gw with upstreams := (alistPut gw.upstreams
                (inlineUpstreamId pid r) (inlineUpstreamPayload pid r iu)) },
             { res with upstreams :=
                res.upstreams ++ [inlineUpstreamId pid r] },
             alistPut mp (r.name.getD "route") (inlineUpstreamId pid r)) := by
          simp [inlineStep, hiu, hok]
        have hmap : inlineMapStep ok pid mp r =
            alistPut mp (r.name.getD "route") (inlineUpstreamId pid r) := by
          simp [inlineMapStep, hiu, hok]
        have hputs : inlinePutsOk ok pid (r :: t) =
            (inlineUpstreamId pid r, inlineUpstreamPayload pid r iu) ::
              inlinePutsOk ok pid t := by
          simp [inlinePutsOk, List.filterMap_cons, hiu, hok]
        have herrs : inlineErrsOk ok pid (r :: t) =
            inlineErrsOk ok pid t := by
          simp [inlineErrsOk, List.filterMap_cons, hiu, hok]
        rw [hstep, hmap, ih, hputs, herrs]
        cases gw
        cases res
        simp [applyPuts_cons]
      | false =>
        have hstep : inlineStep ok pid (gw, res, mp) r =
            (gw,
             { res with errors := (res.errors ++
                [ConfigError.resourceFailed ResKind.upstreamK
                  (inlineUpstreamId pid r)]) },
             mp) := by
          simp [inlineStep, hiu, hok]
        have hmap : inlineMapStep ok pid mp r = mp := by
          simp [inlineMapStep, hiu, hok]
        have hputs : inlinePutsOk ok pid (r :: t) =
            inlinePutsOk ok pid t := by
          simp [inlinePutsOk, List.filterMap_cons, hiu, hok]
        have herrs : inlineErrsOk ok pid (r :: t) =
            ConfigError.resourceFailed ResKind.upstreamK
              (inlineUpstreamId pid r) :: inlineErrsOk ok pid t := by
          simp [inlineErrsOk, List.filterMap_cons, hiu, hok]
        rw [hstep, hmap, ih, hputs, herrs]
        cases gw
        cases res
        simp

theorem foldl_routeStep (ok : ResKind → String → Bool)
    (pid pname : String) (mapping : List (String × String))
    (rs : List AxRouteCfg) :
    ∀ (gw : GatewayState) (res : ConfigResults) (acc : List AxRouteCfg),
      rs.foldl (routeStep ok pid pname mapping) (gw, res, acc)
        = ({ gw with routes :=
              applyPuts gw.routes (routePutsOk ok pid pname mapping rs) },
           { res with
              routes :=
                res.routes ++ (routePutsOk ok pid pname mapping rs).map
                  Prod.fst,
              errors := res.errors ++ routeErrsOk ok pid rs },
           acc ++ rs.map (mutateRouteCfg pid pname mapping)) := by
  induction rs with
  | nil =>
    intro gw res acc
    simp [routePutsOk, routeErrsOk, applyPuts_nil]
  | cons r t ih =>
    intro gw res acc
    rw [List.foldl_cons]
    cases hok : ok ResKind.routeK (routeCfgId pid r) with
    | true =>
      have hstep : routeStep ok pid pname mapping (gw, res, acc) r =
          ({ gw with routes := (alistPut gw.routes (routeCfgId pid r)
              (routeCfgPayload pid pname mapping r)) },
           { res with routes := res.routes ++ [routeCfgId pid r] },
           acc ++ [mutateRouteCfg pid pname mapping r]) := by
        simp [routeStep, hok]
      have hputs : routePutsOk ok pid pname mapping (r :: t) =
          (routeCfgId pid r, routeCfgPayload pid pname mapping r) ::
            routePutsOk ok pid pname mapping t := by
        simp [routePutsOk, List.filter_cons, hok]
      have herrs : routeErrsOk ok pid (r :: t) = routeErrsOk ok pid t := by
        simp [routeErrsOk, List.filter_cons, hok]
      rw [hstep, ih, hputs, herrs]
      cases gw
      cases res
      simp [applyPuts_cons]
    | false =>
      have hstep : routeStep ok pid pname mapping (gw, res, acc) r =
          (gw,
           { res with errors := (res.errors ++
              [ConfigError.resourceFailed ResKind.routeK
                (routeCfgId pid r)]) },
           acc ++ [mutateRouteCfg pid pname mapping r]) := by
        simp [routeStep, hok]
      have hputs : routePutsOk ok pid pname mapping (r :: t) =
          routePutsOk ok pid pname mapping t := by
        simp [routePutsOk, List.filter_cons, hok]
      have herrs : routeErrsOk ok pid (r :: t) =
          ConfigError.resourceFailed ResKind.routeK (routeCfgId pid r) ::
            routeErrsOk ok pid t := by
        simp [routeErrsOk, List.filter_cons, hok]
      rw [hstep, ih, hputs, herrs]
      cases gw
      cases res
      simp

theorem processModule_eq (ok : ResKind → String → Bool)
    (pid pname : String) (acc : GatewayState × ConfigResults)
    (md : AxModule) :
    processModule ok pid pname acc md
      = (({ acc.1 with
            routes := applyPuts acc.1.routes (modRoutePutsOk ok pid pname md),
            upstreams :=
              applyPuts acc.1.upstreams (modUpstreamPutsOk ok pid md) },
          { acc.2 with
            routes :=
              acc.2.routes ++ (modRoutePutsOk ok pid pname md).map Prod.fst,
            upstreams :=
              acc.2.upstreams ++ (modUpstreamPutsOk ok pid md).map Prod.fst,
            errors := acc.2.errors ++ modErrsOk ok pid md }),
         mutateModule ok pid pname md) := by
  cases hap : isApisixGatewayModule md with
  | false =>
    obtain ⟨gw, res⟩ := acc
    cases gw
    cases res
    simp [processModule, hap, modUpstreamPutsOk, modRoutePutsOk, modErrsOk,
      mutateModule, applyPuts_nil]
  | true =>
    obtain ⟨gw, res⟩ := acc
    have hput : modUpstreamPutsOk ok pid md =
        upstreamPutsOk ok pid md.gw_config.upstreams ++
          inlinePutsOk ok pid md.gw_config.routes := by
      simp [modUpstreamPutsOk, hap]
    have hrput : modRoutePutsOk ok pid pname md =
        routePutsOk ok pid pname
          (inlineMappingOk ok pid md.gw_config.routes)
          md.gw_config.routes := by
      simp [modRoutePutsOk, hap]
    have herr : modErrsOk ok pid md =
        upstreamErrsOk ok pid md.gw_config.upstreams ++
          inlineErrsOk ok pid md.gw_config.routes ++
          routeErrsOk ok pid md.gw_config.routes := by
      simp [modErrsOk, hap]
    have hmut : mutateModule ok pid pname md =
        { md with gw_config :=
            ({ md.gw_config with
                upstreams := md.gw_config.upstreams.map
                  (mutateUpstreamCfg pid),
                routes := md.gw_config.routes.map
                  (mutateRouteCfg pid pname
                    (inlineMappingOk ok pid md.gw_config.routes)) }) } := by
      simp [mutateModule, hap]
    rw [hput, hrput, herr, hmut]
    cases gw
    cases res
    simp [processModule, hap, processUpstreams, processInlineUpstreams,
      processRoutes, foldl_upstreamStep, foldl_inlineStep, foldl_routeStep,
      inlineMappingOk, applyPuts_append]

theorem foldl_moduleStep (ok : ResKind → String → Bool)
    (pid pname : String) (mods : List AxModule) :
    ∀ (st : GatewayState × ConfigResults) (accMods : List AxModule),
      mods.foldl (moduleStep ok pid pname) (st, accMods)
        = ((⟨applyPuts st.1.routes
              (mods.flatMap (modRoutePutsOk ok pid pname)),
            applyPuts st.1.upstreams
              (mods.flatMap (modUpstreamPutsOk ok pid)),
            st.1.services, st.1.consumers, st.1.global_rules⟩,
           { st.2 with
              routes := st.2.routes ++
                (mods.flatMap (modRoutePutsOk ok pid pname)).map Prod.fst,
              upstreams := st.2.upstreams ++
                (mods.flatMap (modUpstreamPutsOk ok pid)).map Prod.fst,
              errors := st.2.errors ++ mods.flatMap (modErrsOk ok pid) }),
          accMods ++ mods.map (mutateModule ok pid pname)) := by
  induction mods with
  | nil =>
    intro st accMods
    obtain ⟨gw, res⟩ := st
    cases gw
    cases res
    simp [applyPuts_nil]
  | cons md t ih =>
    intro st accMods
    rw [List.foldl_cons]
    have hstep : moduleStep ok pid pname (st, accMods) md =
        ((processModule ok pid pname st md).1,
         accMods ++ [(processModule ok pid pname st md).2]) := rfl
    rw [hstep, processModule_eq, ih]
    obtain ⟨gw, res⟩ := st
    cases gw
    cases res
    simp [applyPuts_append, List.flatMap_cons]

theorem configure_from_manifest_eq (ok : ResKind → String → Bool)
    (gw : GatewayState) (m : AxManifest)
    (h : ¬ (apisixModulesOf m = [])) :
    configure_from_manifest ok gw m =
      ({ routes := applyPuts gw.routes
            (m.modules.flatMap
              (modRoutePutsOk ok (manifestPid m) (manifestPname m))),
         upstreams := applyPuts gw.upstreams
            (m.modules.flatMap (modUpstreamPutsOk ok (manifestPid m))),
         services := applyPuts gw.services (servicePutsOk ok m),
         consumers := applyPuts gw.consumers (consumerPutsOk ok m),
         global_rules := applyPuts gw.global_rules (grPutsOk ok m) },
       { m with modules := (m.modules.map
            (mutateModule ok (manifestPid m) (manifestPname m))) },
       { routes := (m.modules.flatMap
            (modRoutePutsOk ok (manifestPid m) (manifestPname m))).map
              Prod.fst,
         upstreams := (m.modules.flatMap
            (modUpstreamPutsOk ok (manifestPid m))).map Prod.fst,
         services := (servicePutsOk ok m).map Prod.fst,
         consumers := (consumerPutsOk ok m).map Prod.fst,
         global_rules := (grPutsOk ok m).map Prod.fst,
         errors := consumerErrsOk ok m ++ serviceErrsOk ok m
            ++ m.modules.flatMap (modErrsOk ok (manifestPid m))
            ++ grErrsOk ok m }) := by
  rw [configure_from_manifest]
  rw [if_neg h]
  cases gw
  by_cases hgp : globalPluginsOf m = [] <;>
  cases hcons : ok ResKind.consumerK (consumerUsername (manifestPid m)) <;>
  cases hserv : ok ResKind.serviceK (manifestPid m ++ "-service") <;>
  cases hgr : ok ResKind.globalRuleK (manifestPid m ++ "-global-plugins") <;>
  simp only [manifestPid, manifestPname, manifestEnv] at hcons hserv hgr <;>
  simp [foldl_moduleStep, consumerPutsOk, consumerErrsOk, servicePutsOk,
    serviceErrsOk, grPutsOk, grErrsOk, manifestPid, manifestPname,
    manifestEnv, hcons, hserv, hgp, hgr, applyPuts_nil, applyPuts_cons]

theorem alistPut_keys_of_mem {α : Type} (s : List (String × α)) (k : String)
    (v : α) (h : k ∈ s.map Prod.fst) :
    (alistPut s k v).map Prod.fst = s.map Prod.fst ∧
      (alistPut s k v).length = s.length := by
  have hany : s.any (fun p => p.1 = k) = true := by
    rw [List.any_eq_true]
    obtain ⟨x, hx, hk⟩ := List.mem_map.mp h
    exact ⟨x, hx, by simp [hk]⟩
  rw [alistPut, if_pos hany]
  constructor
  · rw [List.map_map]
    apply List.map_congr_left
    intro x _
    by_cases hxk : x.1 = k
    · simp [hxk]
    · simp [hxk]
  · simp

theorem applyPuts_keys_length {α : Type} (σ : List (String × α)) :
    ∀ s : List (String × α), (∀ q ∈ σ, q.1 ∈ s.map Prod.fst) →
      (applyPuts s σ).map Prod.fst = s.map Prod.fst ∧
        (applyPuts s σ).length = s.length := by
  induction σ with
  | nil => intro s _; exact ⟨rfl, rfl⟩
  | cons p σ ih =>
    intro s h
    rw [applyPuts_cons]
    have hp := h p (List.mem_cons_self p σ)
    obtain ⟨hk, hl⟩ := alistPut_keys_of_mem s p.1 p.2 hp
    have h' : ∀ q ∈ σ, q.1 ∈ (alistPut s p.1 p.2).map Prod.fst := by
      intro q hq
      rw [hk]
      exact h q (List.mem_cons_of_mem p hq)
    obtain ⟨hk2, hl2⟩ := ih (alistPut s p.1 p.2) h'
    exact ⟨hk2.trans hk, hl2.trans hl⟩

theorem mem_keys_applyPuts {α : Type} (s σ : List (String × α)) (k : String)
    (h : k ∈ σ.map Prod.fst) : k ∈ (applyPuts s σ).map Prod.fst := by
  rw [← alistGet_isSome_iff, alistGet_applyPuts]
  have hsome := lastPut_isSome_of_mem_keys σ k h
  cases hlp : lastPut σ k with
  | some v => simp [optOr_some_left]
  | none => rw [hlp] at hsome; simp at hsome

theorem applyPuts_twice {α : Type} (s σ : List (String × α)) :
    (∀ k, alistGet (applyPuts (applyPuts s σ) σ) k =
      alistGet (applyPuts s σ) k)
    ∧ (applyPuts (applyPuts s σ) σ).length = (applyPuts s σ).length := by
  constructor
  · intro k
    rw [alistGet_applyPuts, alistGet_applyPuts]
    cases lastPut σ k with
    | some v => rw [optOr_some_left, optOr_some_left]
    | none => rw [optOr_none_left, optOr_none_left]
  · apply (applyPuts_keys_length σ (applyPuts s σ) ?_).2
    intro q hq
    exact mem_keys_applyPuts s σ q.1 (List.mem_map.mpr ⟨q, hq, rfl⟩)

/-
C8. Re-applying a manifest.
-/

/-- Claim C8, counterexample: `configure_from_manifest` mutates the
manifest's route dicts in place (prefixing their names), so calling it
a second time with the same in-memory manifest object double-prefixes
the ids: a second route `p-p-r` is created alongside `p-r`, and the
final route set differs from a single application. -/
theorem C8_counterexample :
    ((configure_from_manifest okAll
        (configure_from_manifest okAll {} c8Manifest).1
        (configure_from_manifest okAll {} c8Manifest).2.1).1.routes.map
          Prod.fst = ["p-r", "p-p-r"])
    ∧ (configure_from_manifest okAll {} c8Manifest).1.routes.map Prod.fst
        = ["p-r"] := by
  refine ⟨by decide, by decide⟩

/-- Claim C8, amended: applying `configure_from_manifest` twice with
the same manifest document (the same value, as the sync flow does by
re-fetching it) and all PUTs succeeding yields the same final stores of
routes, upstreams, services and consumers as applying it once — every
resource id is a deterministic function of `project_id` and the
resource's name, and creation is a create-or-replace PUT. (Re-using
the same mutated in-memory dict instead is not idempotent; see the
counterexample.) -/
theorem C8_value_idempotent (gw : GatewayState) (m : AxManifest) :
    (∀ k, alistGet (configure_from_manifest okAll
        (configure_from_manifest okAll gw m).1 m).1.routes k
      = alistGet (configure_from_manifest okAll gw m).1.routes k)
    ∧ (configure_from_manifest okAll
        (configure_from_manifest okAll gw m).1 m).1.routes.length
      = (configure_from_manifest okAll gw m).1.routes.length
    ∧ (∀ k, alistGet (configure_from_manifest okAll
        (configure_from_manifest okAll gw m).1 m).1.upstreams k
      = alistGet (configure_from_manifest okAll gw m).1.upstreams k)
    ∧ (configure_from_manifest okAll
        (configure_from_manifest okAll gw m).1 m).1.upstreams.length
      = (configure_from_manifest okAll gw m).1.upstreams.length
    ∧ (∀ k, alistGet (configure_from_manifest okAll
        (configure_from_manifest okAll gw m).1 m).1.services k
      = alistGet (configure_from_manifest okAll gw m).1.services k)
    ∧ (configure_from_manifest okAll
        (configure_from_manifest okAll gw m).1 m).1.services.length
      = (configure_from_manifest okAll gw m).1.services.length
    ∧ (∀ k, alistGet (configure_from_manifest okAll
        (configure_from_manifest okAll gw m).1 m).1.consumers k
      = alistGet (configure_from_manifest okAll gw m).1.consumers k)
    ∧ (configure_from_manifest okAll
        (configure_from_manifest okAll gw m).1 m).1.consumers.length
      = (configure_from_manifest okAll gw m).1.consumers.length := by
  by_cases h : apisixModulesOf m = []
  · have hc : configure_from_manifest okAll gw m =
        (gw, m, { errors := [ConfigError.noGatewayModule] }) := by
      rw [configure_from_manifest, if_pos h]
    simp [hc]
  · rw [configure_from_manifest_eq okAll gw m h]
    rw [configure_from_manifest_eq okAll _ m h]
    exact ⟨(applyPuts_twice _ _).1, (applyPuts_twice _ _).2,
      (applyPuts_twice _ _).1, (applyPuts_twice _ _).2,
      (applyPuts_twice _ _).1, (applyPuts_twice _ _).2,
      (applyPuts_twice _ _).1, (applyPuts_twice _ _).2⟩

/-
C9. Per-resource failures never abort the sync.
-/

theorem mapOfFlatMap {α β γ : Type} (l : List α) (f : α → List β)
    (g : β → γ) :
    (l.flatMap f).map g = l.flatMap (fun a => (f a).map g) := by
  induction l with
  | nil => rfl
  | cons a t ih => simp [List.flatMap_cons, ih]

theorem filterOfFlatMap {α β : Type} (l : List α) (f : α → List β)
    (p : β → Bool) :
    (l.flatMap f).filter p = l.flatMap (fun a => (f a).filter p) := by
  induction l with
  | nil => rfl
  | cons a t ih => simp [List.flatMap_cons, List.filter_append, ih]

theorem map_filter_comm {α β : Type} (f : α → β) (p : β → Bool)
    (l : List α) :
    (l.filter fun a => p (f a)).map f = (l.map f).filter p := by
  induction l with
  | nil => rfl
  | cons a t ih =>
    by_cases h : p (f a) = true <;> simp [List.filter_cons, h, ih]

theorem upstreamSucc_eq (ok : ResKind → String → Bool) (pid : String)
    (us : List AxUpstreamCfg) :
    (upstreamPutsOk ok pid us).map Prod.fst
      = (us.map (upstreamCfgId pid)).filter
          (fun i => ok ResKind.upstreamK i) := by
  rw [upstreamPutsOk, List.map_map]
  exact map_filter_comm (upstreamCfgId pid)
    (fun i => ok ResKind.upstreamK i) us

theorem upstreamErrs_eq (ok : ResKind → String → Bool) (pid : String)
    (us : List AxUpstreamCfg) :
    upstreamErrsOk ok pid us
      = ((us.map fun u => (ResKind.upstreamK, upstreamCfgId pid u)).filter
          (fun a => ! ok a.1 a.2)).map
            (fun a => ConfigError.resourceFailed a.1 a.2) := by
  induction us with
  | nil => rfl
  | cons u t ih =>
    cases hok : ok ResKind.upstreamK (upstreamCfgId pid u) <;>
    simp [upstreamErrsOk, List.filter_cons, hok, ih] <;>
    simp [upstreamErrsOk] at ih <;> exact ih

theorem inlineSucc_eq (ok : ResKind → String → Bool) (pid : String)
    (rs : List AxRouteCfg) :
    (inlinePutsOk ok pid rs).map Prod.fst
      = (rs.filterMap fun r => r.inlineUpstream.map fun _ =>
          inlineUpstreamId pid r).filter
            (fun i => ok ResKind.upstreamK i) := by
  induction rs with
  | nil => rfl
  | cons r t ih =>
    cases hiu : r.inlineUpstream with
    | none => simpa [inlinePutsOk, List.filterMap_cons, hiu] using ih
    | some iu =>
      cases hok : ok ResKind.upstreamK (inlineUpstreamId pid r) <;>
      simp [inlinePutsOk, List.filterMap_cons, List.filter_cons, hiu, hok]
        <;>
      simp [inlinePutsOk] at ih <;> exact ih

theorem inlineErrs_eq (ok : ResKind → String → Bool) (pid : String)
    (rs : List AxRouteCfg) :
    inlineErrsOk ok pid rs
      = ((rs.filterMap fun r => r.inlineUpstream.map fun _ =>
          (ResKind.upstreamK, inlineUpstreamId pid r)).filter
            (fun a => ! ok a.1 a.2)).map
              (fun a => ConfigError.resourceFailed a.1 a.2) := by
  induction rs with
  | nil => rfl
  | cons r t ih =>
    cases hiu : r.inlineUpstream with
    | none => simpa [inlineErrsOk, List.filterMap_cons, hiu] using ih
    | some iu =>
      cases hok : ok ResKind.upstreamK (inlineUpstreamId pid r) <;>
      simp [inlineErrsOk, List.filterMap_cons, List.filter_cons, hiu, hok]
        <;>
      simp [inlineErrsOk] at ih <;> exact ih

theorem routeSucc_eq (ok : ResKind → String → Bool) (pid pname : String)
    (mapping : List (String × String)) (rs : List AxRouteCfg) :
    (routePutsOk ok pid pname mapping rs).map Prod.fst
      = (rs.map (routeCfgId pid)).filter (fun i => ok ResKind.routeK i) := by
  rw [routePutsOk, List.map_map]
  exact map_filter_comm (routeCfgId pid) (fun i => ok ResKind.routeK i) rs

theorem routeErrs_eq (ok : ResKind → String → Bool) (pid : String)
    (rs : List AxRouteCfg) :
    routeErrsOk ok pid rs
      = ((rs.map fun r => (ResKind.routeK, routeCfgId pid r)).filter
          (fun a => ! ok a.1 a.2)).map
            (fun a => ConfigError.resourceFailed a.1 a.2) := by
  induction rs with
  | nil => rfl
  | cons r t ih =>
    cases hok : ok ResKind.routeK (routeCfgId pid r) <;>
    simp [routeErrsOk, List.filter_cons, hok, ih] <;>
    simp [routeErrsOk] at ih <;> exact ih

theorem modUpSucc_eq (ok : ResKind → String → Bool) (pid : String)
    (md : AxModule) :
    (modUpstreamPutsOk ok pid md).map Prod.fst
      = ((if isApisixGatewayModule md then
            md.gw_config.upstreams.map (upstreamCfgId pid)
            ++ md.gw_config.routes.filterMap (fun r =>
                r.inlineUpstream.map fun _ => inlineUpstreamId pid r)
          else []).filter (fun i => ok ResKind.upstreamK i)) := by
  cases hap : isApisixGatewayModule md <;>
  simp [modUpstreamPutsOk, hap, upstreamSucc_eq, inlineSucc_eq,
    List.filter_append]

theorem modRouteSucc_eq (ok : ResKind → String → Bool)
    (pid pname : String) (md : AxModule) :
    (modRoutePutsOk ok pid pname md).map Prod.fst
      = ((if isApisixGatewayModule md then
            md.gw_config.routes.map (routeCfgId pid)
          else []).filter (fun i => ok ResKind.routeK i)) := by
  cases hap : isApisixGatewayModule md <;>
  simp [modRoutePutsOk, hap, routeSucc_eq]

theorem modErrs_eq (ok : ResKind → String → Bool) (pid : String)
    (md : AxModule) :
    modErrsOk ok pid md
      = ((moduleAttemptsOf pid md).filter (fun a => ! ok a.1 a.2)).map
          (fun a => ConfigError.resourceFailed a.1 a.2) := by
  cases hap : isApisixGatewayModule md <;>
  simp [modErrsOk, moduleAttemptsOf, hap, upstreamErrs_eq, inlineErrs_eq,
    routeErrs_eq, List.filter_append, List.map_append]

/-- Claim C9: during `configure_from_manifest`, every resource creation
is attempted regardless of other resources' failures: the returned
`errors` list is exactly the failed attempts (in attempt order, each as
a non-fatal entry), and each per-kind success list is exactly the
attempts of that kind whose PUT succeeded — so successes are reported
alongside the errors and no failure aborts the sync. -/
theorem C9_failures_never_abort (ok : ResKind → String → Bool)
    (gw : GatewayState) (m : AxManifest)
    (h : ¬ (apisixModulesOf m = [])) :
    (configure_from_manifest ok gw m).2.2.errors
      = ((attemptsOf m).filter (fun a => ! ok a.1 a.2)).map
          (fun a => ConfigError.resourceFailed a.1 a.2)
    ∧ (configure_from_manifest ok gw m).2.2.consumers
      = (if ok ResKind.consumerK (consumerUsername (manifestPid m)) then
          [consumerUsername (manifestPid m)] else [])
    ∧ (configure_from_manifest ok gw m).2.2.services
      = (if ok ResKind.serviceK (manifestPid m ++ "-service") then
          [manifestPid m ++ "-service"] else [])
    ∧ (configure_from_manifest ok gw m).2.2.upstreams
      = (upstreamAttemptsOf m).filter (fun i => ok ResKind.upstreamK i)
    ∧ (configure_from_manifest ok gw m).2.2.routes
      = (routeAttemptsOf m).filter (fun i => ok ResKind.routeK i)
    ∧ (configure_from_manifest ok gw m).2.2.global_rules
      = (globalRuleAttemptsOf m).filter
          (fun i => ok ResKind.globalRuleK i) := by
  rw [configure_from_manifest_eq ok gw m h]
  refine ⟨?_, ?_, ?_, ?_, ?_, ?_⟩
  · show consumerErrsOk ok m ++ serviceErrsOk ok m
        ++ m.modules.flatMap (modErrsOk ok (manifestPid m))
        ++ grErrsOk ok m = _
    rw [attemptsOf, List.filter_append, List.filter_append,
      List.map_append, List.map_append, filterOfFlatMap, mapOfFlatMap]
    congr 1
    · congr 1
      · cases hc : ok ResKind.consumerK (consumerUsername (manifestPid m))
          <;>
        cases hs : ok ResKind.serviceK (manifestPid m ++ "-service") <;>
        simp [consumerErrsOk, serviceErrsOk, List.filter_cons, hc, hs]
      · have hfun : modErrsOk ok (manifestPid m) =
            fun md => ((moduleAttemptsOf (manifestPid m) md).filter
              (fun a => ! ok a.1 a.2)).map
                (fun a => ConfigError.resourceFailed a.1 a.2) :=
          funext (fun md => modErrs_eq ok (manifestPid m) md)
        rw [hfun]
    · by_cases hgp : globalPluginsOf m = []
      · simp [grErrsOk, hgp]
      · cases hgr : ok ResKind.globalRuleK (manifestPid m ++ "-global-plugins")
          <;>
        simp [grErrsOk, hgp, hgr, List.filter_cons]
  · cases hc : ok ResKind.consumerK (consumerUsername (manifestPid m)) <;>
    simp [consumerPutsOk, hc]
  · cases hs : ok ResKind.serviceK (manifestPid m ++ "-service") <;>
    simp [servicePutsOk, hs]
  · show (m.modules.flatMap (modUpstreamPutsOk ok (manifestPid m))).map
        Prod.fst = _
    rw [mapOfFlatMap]
    simp only [modUpSucc_eq]
    rw [← filterOfFlatMap]
    rw [upstreamAttemptsOf]
    rfl
  · show (m.modules.flatMap
        (modRoutePutsOk ok (manifestPid m) (manifestPname m))).map
        Prod.fst = _
    rw [mapOfFlatMap]
    simp only [modRouteSucc_eq]
    rw [← filterOfFlatMap]
    rw [routeAttemptsOf]
    rfl
  · by_cases hgp : globalPluginsOf m = []
    · simp [grPutsOk, globalRuleAttemptsOf, hgp]
    · cases hgr : ok ResKind.globalRuleK (manifestPid m ++ "-global-plugins")
        <;>
      simp [grPutsOk, globalRuleAttemptsOf, manifestPid, hgp, hgr,
        List.filter_cons] <;>
      simp only [manifestPid] at hgr <;> simp [hgr]

/-- Witness for C9 on the concrete one-route manifest with an oracle
failing exactly the service PUT: the service failure is collected and
the consumer and route are still created and reported. -/
theorem C9_witness :
    (configure_from_manifest failServiceOk {} c8Manifest).2.2.errors
      = ((attemptsOf c8Manifest).filter
          (fun a => ! failServiceOk a.1 a.2)).map
            (fun a => ConfigError.resourceFailed a.1 a.2)
    ∧ (configure_from_manifest failServiceOk {} c8Manifest).2.2.routes
      = (routeAttemptsOf c8Manifest).filter
          (fun i => failServiceOk ResKind.routeK i) := by
  have h := C9_failures_never_abort failServiceOk {} c8Manifest (by decide)
  exact ⟨h.1, h.2.2.2.2.1⟩

end DspFd2
